import Mathlib

/-!
The Scaler HAL entry points of `libscaler.cpp`.

A shallow embedding of `src/libscaler/libscaler.cpp`.

The entry points of `libscaler.cpp` drive a scaler session object through the
methods of the classes `CScalerM2M1SHOT`, `CScalerV4L2` and `CScalerBlendV4L2`.
Those classes are declared in headers that are not part of `libscaler.cpp`, so
every method is a field of a record of functions over an arbitrary session
state `σ`: a method that returns `bool` is a function `σ → … → Bool × σ`, a
method whose result the entry points never read is a function `σ → … → σ`.
The theorems hold for every such record.

Every method call that an entry point makes on the session is appended to a
call log (`Call`), in program order, together with the arguments it was given.
The `const` queries `Valid()` and `IsDRMAllowed()` are not logged.
-/

namespace LibScaler

/-! ## Constants of external headers -/

/-- The constant `HAL_TRANSFORM_FLIP_H` of `system/graphics.h`. -/
def HAL_TRANSFORM_FLIP_H : Nat := 1
/-- The constant `HAL_TRANSFORM_FLIP_V` of `system/graphics.h`. -/
def HAL_TRANSFORM_FLIP_V : Nat := 2
/-- The constant `HAL_TRANSFORM_ROT_90` of `system/graphics.h`. -/
def HAL_TRANSFORM_ROT_90 : Nat := 4
/-- The constant `HAL_TRANSFORM_ROT_270` of `system/graphics.h`. -/
def HAL_TRANSFORM_ROT_270 : Nat := 7
/-- The constant `V4L2_MEMORY_USERPTR` of `linux/videodev2.h`. -/
def V4L2_MEMORY_USERPTR : Int := 2

/-- The ten pixel format constants that `sc_fmt_tbl` is built from. Their
values are declared outside `libscaler.cpp`; they are parameters here. -/
structure PixelFormats where
  EXYNOS_SC_FMT_RGB32 : Nat
  EXYNOS_SC_FMT_BGR32 : Nat
  EXYNOS_SC_FMT_RGB565 : Nat
  EXYNOS_SC_FMT_RGB555X : Nat
  EXYNOS_SC_FMT_RGB444 : Nat
  V4L2_PIX_FMT_RGB32 : Nat
  V4L2_PIX_FMT_BGR32 : Nat
  V4L2_PIX_FMT_RGB565 : Nat
  V4L2_PIX_FMT_RGB555X : Nat
  V4L2_PIX_FMT_RGB444 : Nat
deriving Repr, DecidableEq

/-- Conversion of an `int32_t` value to `unsigned int`. -/
def toUnsigned (x : Int) : Nat := (x % 4294967296).toNat

/-! ## Data passed across the API -/

/-- The three plane addresses `void *addr[SC_NUM_OF_PLANES]`. -/
structure PlaneAddr where
  a0 : Nat
  a1 : Nat
  a2 : Nat
deriving Repr, DecidableEq

/-- The fields of `exynos_sc_img` that `libscaler.cpp` reads or writes. -/
structure exynos_sc_img where
  x : Nat
  y : Nat
  w : Nat
  h : Nat
  fw : Nat
  fh : Nat
  format : Nat
  yaddr : Nat
  uaddr : Nat
  vaddr : Nat
  rot : Nat
  cacheable : Nat
  drmMode : Nat
  narrowRgb : Nat
  acquireFenceFd : Int
  releaseFenceFd : Int
  mem_type : Int
  pre_multi : Nat
deriving Repr, DecidableEq

/-- One side (`src` or `dst`) of `exynos_sc_pxinfo`. -/
structure exynos_sc_pxinfo_img where
  addr : Nat
  width : Nat
  height : Nat
  crop_left : Nat
  crop_top : Nat
  crop_width : Nat
  crop_height : Nat
  pxfmt : Nat
deriving Repr, DecidableEq

/-- The fields of `exynos_sc_pxinfo` read by `exynos_sc_copy_pixels`. -/
structure exynos_sc_pxinfo where
  src : exynos_sc_pxinfo_img
  dst : exynos_sc_pxinfo_img
  rotate : Nat
  hflip : Nat
  vflip : Nat
deriving Repr, DecidableEq

/-- The fields of `struct SrcBlendInfo` read by
`exynos_sc_config_blend_exclusive`. -/
structure SrcBlendInfo where
  blop : Nat
  globalalpha_val : Nat
  globalalpha_enable : Nat
  srcblendvpos : Nat
  srcblendhpos : Nat
  srcblendpremulti : Nat
  srcblendfmt : Nat
  srcblendstride : Nat
  srcblendwidth : Nat
  srcblendheight : Nat
  cscspec_enable : Nat
  cscspec_space : Nat
  cscspec_wide : Nat
deriving Repr, DecidableEq

/-! ## The call log -/

/-- A call made by an entry point: a method of the session object with the
arguments it was given, `close(fd)` on a descriptor, or `delete sc`. -/
inductive Call where
  | SetSrcFormat (width height fmt : Nat)
  | SetDstFormat (width height fmt : Nat)
  | SetSrcCrop (left top width height : Nat)
  | SetDstCrop (left top width height : Nat)
  | SetRotate (rot flip_h flip_v : Nat)
  | SetSrcAddr (addr : PlaneAddr) (mem_type : Int) (fence : Option Int)
  | SetDstAddr (addr : PlaneAddr) (mem_type : Int) (fence : Option Int)
  | Run
  | Stop
  | SetCSCWide (wide : Bool)
  | SetSrcCacheable (cacheable : Bool)
  | SetDstCacheable (cacheable : Bool)
  | SetSrcPremultiplied (premultiplied : Bool)
  | SetDstPremultiplied (premultiplied : Bool)
  | SetDRM (drm : Bool)
  | DevSetCtrl
  | DevSetFormat
  | ReqBufs
  | QBuf
  | StreamOn
  | GetCustomAlphaBlendFmt (src_color_space blend_color_space : Int)
  | SetSrcBlendOp (blop : Nat)
  | SetSrcGlobalAlpha (val enable : Nat)
  | SetSrcBlendVPos (pos : Nat)
  | SetSrcBlendHPos (pos : Nat)
  | SetSrcBlendPremulti (premulti : Nat)
  | SetSrcBlendFmt (fmt : Int)
  | SetSrcBlendStride (stride : Nat)
  | SetSrcBlendWidth (width : Nat)
  | SetSrcBlendHeight (height : Nat)
  | SetSrcBlendCSCSpace (enable space wide : Nat)
  | close (fd : Int)
  | delete
deriving Repr, DecidableEq

/-- A session object together with the calls made on it so far. -/
abbrev Logged (σ : Type) := σ × List Call

/-- Calls a `bool` method `m` on the session and logs the call as `c`. -/
def invoke {σ : Type} (st : Logged σ) (c : Call) (m : σ → Bool × σ) : Bool × Logged σ :=
  ((m st.1).1, ((m st.1).2, st.2 ++ [c]))

/-- Calls a method `m` whose result is not read and logs the call as `c`. -/
def invokeVoid {σ : Type} (st : Logged σ) (c : Call) (m : σ → σ) : Logged σ :=
  (m st.1, st.2 ++ [c])

/-- What an entry point returns, the session object behind the handle after
the call (`none` when there is no object: a NULL handle or a deleted one) and
the calls it made. -/
structure Outcome (σ : Type) (α : Type) where
  ret : α
  sc : Option σ
  calls : List Call

/-! ## `find_pixel` and `exynos_sc_copy_pixels` (lines 48–121) -/

/-- The table `sc_fmt_tbl` of `find_pixel`. -/
def sc_fmt_tbl (K : PixelFormats) : List (Nat × Nat) :=
  [ (K.EXYNOS_SC_FMT_RGB32, K.V4L2_PIX_FMT_RGB32),
    (K.EXYNOS_SC_FMT_BGR32, K.V4L2_PIX_FMT_BGR32),
    (K.EXYNOS_SC_FMT_RGB565, K.V4L2_PIX_FMT_RGB565),
    (K.EXYNOS_SC_FMT_RGB555X, K.V4L2_PIX_FMT_RGB555X),
    (K.EXYNOS_SC_FMT_RGB444, K.V4L2_PIX_FMT_RGB444) ]

/-- The `for` loop of `find_pixel` over the remaining rows of the table.
`v4l2_pxfmt` is the value held by the output location; the result is the
returned `bool` and the value the output location holds afterwards. -/
def find_pixel_loop (rows : List (Nat × Nat)) (sc_pxfmt : Nat) (v4l2_pxfmt : Nat) : Bool × Nat :=
  match rows with
  | [] => (false, v4l2_pxfmt)
  | row :: rest =>
    if sc_pxfmt = row.1 then (true, row.2)
    else find_pixel_loop rest sc_pxfmt v4l2_pxfmt

/-- The function `find_pixel`. -/
def find_pixel (K : PixelFormats) (sc_pxfmt : Nat) (v4l2_pxfmt : Nat) : Bool × Nat :=
  find_pixel_loop (sc_fmt_tbl K) sc_pxfmt v4l2_pxfmt

/-- The methods of `CScalerM2M1SHOT` used by `exynos_sc_copy_pixels`. -/
structure CScalerM2M1SHOT (σ : Type) where
  ctor : Int → σ
  Valid : σ → Bool
  SetSrcFormat : σ → Nat → Nat → Nat → Bool × σ
  SetDstFormat : σ → Nat → Nat → Nat → Bool × σ
  SetSrcCrop : σ → Nat → Nat → Nat → Nat → Bool × σ
  SetDstCrop : σ → Nat → Nat → Nat → Nat → Bool × σ
  SetRotate : σ → Nat → Nat → Nat → Bool × σ
  SetSrcAddr : σ → PlaneAddr → Int → Bool × σ
  SetDstAddr : σ → PlaneAddr → Int → Bool × σ
  Run : σ → Bool × σ

/-- The function `exynos_sc_copy_pixels`. The session `sc` is a local object;
the result is the returned `bool` and the calls made on `sc`. The locals
`srcfmt` and `dstfmt` are read only after `find_pixel` has assigned them; the
value they hold before is given as `0`. -/
def exynos_sc_copy_pixels {σ : Type} (K : PixelFormats) (ops : CScalerM2M1SHOT σ)
    (pxinfo : exynos_sc_pxinfo) (dev_num : Int) : Bool × List Call :=
  let sc := ops.ctor dev_num
  if !ops.Valid sc then (false, []) else
  let f1 := find_pixel K pxinfo.src.pxfmt 0
  if !f1.1 then (false, []) else
  let srcfmt := f1.2
  let f2 := find_pixel K pxinfo.dst.pxfmt 0
  if !f2.1 then (false, []) else
  let dstfmt := f2.2
  let r1 := invoke (sc, []) (.SetSrcFormat pxinfo.src.width pxinfo.src.height srcfmt)
    (fun s => ops.SetSrcFormat s pxinfo.src.width pxinfo.src.height srcfmt)
  if !r1.1 then (false, r1.2.2) else
  let r2 := invoke r1.2 (.SetDstFormat pxinfo.dst.width pxinfo.dst.height dstfmt)
    (fun s => ops.SetDstFormat s pxinfo.dst.width pxinfo.dst.height dstfmt)
  if !r2.1 then (false, r2.2.2) else
  let r3 := invoke r2.2
    (.SetSrcCrop pxinfo.src.crop_left pxinfo.src.crop_top pxinfo.src.crop_width pxinfo.src.crop_height)
    (fun s => ops.SetSrcCrop s pxinfo.src.crop_left pxinfo.src.crop_top
      pxinfo.src.crop_width pxinfo.src.crop_height)
  if !r3.1 then (false, r3.2.2) else
  let r4 := invoke r3.2
    (.SetDstCrop pxinfo.dst.crop_left pxinfo.dst.crop_top pxinfo.dst.crop_width pxinfo.dst.crop_height)
    (fun s => ops.SetDstCrop s pxinfo.dst.crop_left pxinfo.dst.crop_top
      pxinfo.dst.crop_width pxinfo.dst.crop_height)
  if !r4.1 then (false, r4.2.2) else
  let r5 := invoke r4.2 (.SetRotate pxinfo.rotate pxinfo.hflip pxinfo.vflip)
    (fun s => ops.SetRotate s pxinfo.rotate pxinfo.hflip pxinfo.vflip)
  if !r5.1 then (false, r5.2.2) else
  let addr : PlaneAddr := ⟨pxinfo.src.addr, 0, 0⟩
  let r6 := invoke r5.2 (.SetSrcAddr addr V4L2_MEMORY_USERPTR none)
    (fun s => ops.SetSrcAddr s addr V4L2_MEMORY_USERPTR)
  if !r6.1 then (false, r6.2.2) else
  let addr : PlaneAddr := ⟨pxinfo.dst.addr, 0, 0⟩
  let r7 := invoke r6.2 (.SetDstAddr addr V4L2_MEMORY_USERPTR none)
    (fun s => ops.SetDstAddr s addr V4L2_MEMORY_USERPTR)
  if !r7.1 then (false, r7.2.2) else
  let r8 := invoke r7.2 .Run ops.Run
  (r8.1, r8.2.2)

/-! ## The blocking entry points (lines 123–301) -/

/-- The methods of `CScalerNonStream` (a name for `CScalerM2M1SHOT` or for
`CScalerV4L2`, depending on `SCALER_USE_M2M1SHOT`) used by `exynos_sc_destroy`,
`exynos_sc_set_src_format` and `exynos_sc_set_dst_format`. -/
structure CScalerNonStream (σ : Type) where
  Valid : σ → Bool
  Stop : σ → Bool × σ
  SetSrcPremultiplied : σ → Bool → σ
  SetDstPremultiplied : σ → Bool → σ
  SetSrcCacheable : σ → Bool → σ
  SetDstCacheable : σ → Bool → σ
  SetDRM : σ → Bool → σ
  SetSrcFormat : σ → Nat → Nat → Nat → Bool × σ
  SetDstFormat : σ → Nat → Nat → Nat → Bool × σ
  SetSrcCrop : σ → Nat → Nat → Nat → Nat → Bool × σ
  SetDstCrop : σ → Nat → Nat → Nat → Nat → Bool × σ

/-- The function `GetNonStreamScaler`: `none` is the NULL pointer. -/
def GetNonStreamScaler {σ : Type} (ops : CScalerNonStream σ) (handle : Option σ) : Option σ :=
  match handle with
  | none => none
  | some sc => if !ops.Valid sc then none else some sc

/-- The function `exynos_sc_destroy`. -/
def exynos_sc_destroy {σ : Type} (ops : CScalerNonStream σ) (handle : Option σ) : Outcome σ Int :=
  match GetNonStreamScaler ops handle with
  | none => ⟨-1, handle, []⟩
  | some sc =>
    let r := invoke (sc, []) .Stop ops.Stop
    let ret : Int := if !r.1 then -1 else 0
    ⟨ret, none, r.2.2 ++ [.delete]⟩

/-- The methods of `CScalerV4L2` used by the exclusive entry points. `QBuf`
returns its `bool` with the values it stores in its two output arguments. -/
structure CScalerV4L2 (σ : Type) where
  Valid : σ → Bool
  IsDRMAllowed : σ → Bool
  Stop : σ → Bool × σ
  SetRotate : σ → Nat → Nat → Nat → Bool × σ
  SetSrcFormat : σ → Nat → Nat → Nat → Bool × σ
  SetDstFormat : σ → Nat → Nat → Nat → Bool × σ
  SetSrcCrop : σ → Nat → Nat → Nat → Nat → Bool × σ
  SetDstCrop : σ → Nat → Nat → Nat → Nat → Bool × σ
  SetCSCWide : σ → Bool → σ
  SetSrcCacheable : σ → Bool → σ
  SetDstCacheable : σ → Bool → σ
  SetSrcPremultiplied : σ → Bool → σ
  SetDstPremultiplied : σ → Bool → σ
  SetDRM : σ → Bool → σ
  SetSrcAddr : σ → PlaneAddr → Int → Int → Bool × σ
  SetDstAddr : σ → PlaneAddr → Int → Int → Bool × σ
  DevSetCtrl : σ → Bool × σ
  DevSetFormat : σ → Bool × σ
  ReqBufs : σ → Bool × σ
  QBuf : σ → (Bool × Int × Int) × σ
  StreamOn : σ → Bool × σ

/-- The function `GetScaler`: `none` is the NULL pointer. -/
def GetScaler {σ : Type} (ops : CScalerV4L2 σ) (handle : Option σ) : Option σ :=
  match handle with
  | none => none
  | some sc => if !ops.Valid sc then none else some sc

/-- The function `exynos_sc_free_and_close`. -/
def exynos_sc_free_and_close {σ : Type} (ops : CScalerV4L2 σ) (handle : Option σ) :
    Outcome σ Int :=
  match GetScaler ops handle with
  | none => ⟨-1, handle, []⟩
  | some sc =>
    let r := invoke (sc, []) .Stop ops.Stop
    let ret : Int := if !r.1 then -1 else 0
    ⟨ret, none, r.2.2 ++ [.delete]⟩

/-- The block that derives `rot`, `flip_h` and `flip_v` from `dst_img->rot`
(lines 417–430, and again lines 552–565). -/
def rot_flip (dst_rot : Nat) : Nat × Nat × Nat :=
  let rot : Nat := 0
  let flip_h : Nat := 0
  let flip_v : Nat := 0
  if dst_rot = HAL_TRANSFORM_ROT_270 then (270, flip_h, flip_v)
  else
    let flip_h := if dst_rot &&& HAL_TRANSFORM_FLIP_H ≠ 0 then 1 else flip_h
    let flip_v := if dst_rot &&& HAL_TRANSFORM_FLIP_V ≠ 0 then 1 else flip_v
    let rot := if dst_rot &&& HAL_TRANSFORM_ROT_90 ≠ 0 then 90 else rot
    (rot, flip_h, flip_v)

/-- The function `exynos_sc_config_exclusive`. The format translation
`HAL_PIXEL_FORMAT_2_V4L2_PIX` is declared outside `libscaler.cpp` and is a
parameter. -/
def exynos_sc_config_exclusive {σ : Type} (HAL_PIXEL_FORMAT_2_V4L2_PIX : Nat → Int)
    (ops : CScalerV4L2 σ) (handle : Option σ) (src_img dst_img : exynos_sc_img) :
    Outcome σ Int :=
  match GetScaler ops handle with
  | none => ⟨-1, handle, []⟩
  | some sc =>
    if src_img.drmMode != 0 && !ops.IsDRMAllowed sc then ⟨-1, some sc, []⟩ else
    let rfv := rot_flip dst_img.rot
    let r1 := invoke (sc, []) (.SetRotate rfv.1 rfv.2.1 rfv.2.2)
      (fun s => ops.SetRotate s rfv.1 rfv.2.1 rfv.2.2)
    if !r1.1 then ⟨-1, some r1.2.1, r1.2.2⟩ else
    let src_color_space : Int := HAL_PIXEL_FORMAT_2_V4L2_PIX src_img.format
    let dst_color_space : Int := HAL_PIXEL_FORMAT_2_V4L2_PIX dst_img.format
    let r2 := invoke r1.2 (.SetSrcFormat src_img.fw src_img.fh (toUnsigned src_color_space))
      (fun s => ops.SetSrcFormat s src_img.fw src_img.fh (toUnsigned src_color_space))
    if !r2.1 then ⟨-1, some r2.2.1, r2.2.2⟩ else
    let r3 := invoke r2.2 (.SetSrcCrop src_img.x src_img.y src_img.w src_img.h)
      (fun s => ops.SetSrcCrop s src_img.x src_img.y src_img.w src_img.h)
    if !r3.1 then ⟨-1, some r3.2.1, r3.2.2⟩ else
    let r4 := invoke r3.2 (.SetDstFormat dst_img.fw dst_img.fh (toUnsigned dst_color_space))
      (fun s => ops.SetDstFormat s dst_img.fw dst_img.fh (toUnsigned dst_color_space))
    if !r4.1 then ⟨-1, some r4.2.1, r4.2.2⟩ else
    let r5 := invoke r4.2 (.SetDstCrop dst_img.x dst_img.y dst_img.w dst_img.h)
      (fun s => ops.SetDstCrop s dst_img.x dst_img.y dst_img.w dst_img.h)
    if !r5.1 then ⟨-1, some r5.2.1, r5.2.2⟩ else
    let s6 := invokeVoid r5.2 (.SetCSCWide (dst_img.narrowRgb == 0))
      (fun s => ops.SetCSCWide s (dst_img.narrowRgb == 0))
    let s7 := invokeVoid s6 (.SetSrcCacheable (src_img.cacheable != 0))
      (fun s => ops.SetSrcCacheable s (src_img.cacheable != 0))
    let s8 := invokeVoid s7 (.SetDstCacheable (dst_img.cacheable != 0))
      (fun s => ops.SetDstCacheable s (dst_img.cacheable != 0))
    let s9 := invokeVoid s8 (.SetSrcPremultiplied (src_img.pre_multi != 0))
      (fun s => ops.SetSrcPremultiplied s (src_img.pre_multi != 0))
    let s10 := invokeVoid s9 (.SetDstPremultiplied (dst_img.pre_multi != 0))
      (fun s => ops.SetDstPremultiplied s (dst_img.pre_multi != 0))
    let s11 := invokeVoid s10 (.SetDRM (src_img.drmMode != 0 || dst_img.drmMode != 0))
      (fun s => ops.SetDRM s (src_img.drmMode != 0 || dst_img.drmMode != 0))
    ⟨0, some s11.1, s11.2⟩

/-- What `exynos_sc_run_exclusive` returns: its outcome and the two image
descriptors as it leaves them. -/
structure RunOutcome (σ : Type) where
  ret : Int
  sc : Option σ
  calls : List Call
  src_img : exynos_sc_img
  dst_img : exynos_sc_img

/-- The function `exynos_sc_run_exclusive`. -/
def exynos_sc_run_exclusive {σ : Type} (ops : CScalerV4L2 σ) (handle : Option σ)
    (src_img dst_img : exynos_sc_img) : RunOutcome σ :=
  match GetScaler ops handle with
  | none => ⟨-1, handle, [], src_img, dst_img⟩
  | some sc =>
    let addr : PlaneAddr := ⟨src_img.yaddr, src_img.uaddr, src_img.vaddr⟩
    let b1 := invoke (sc, []) (.SetSrcAddr addr src_img.mem_type (some src_img.acquireFenceFd))
      (fun s => ops.SetSrcAddr s addr src_img.mem_type src_img.acquireFenceFd)
    let addr : PlaneAddr := ⟨dst_img.yaddr, dst_img.uaddr, dst_img.vaddr⟩
    let b2 := invoke b1.2 (.SetDstAddr addr dst_img.mem_type (some dst_img.acquireFenceFd))
      (fun s => ops.SetDstAddr s addr dst_img.mem_type dst_img.acquireFenceFd)
    let r1 := invoke b2.2 .DevSetCtrl ops.DevSetCtrl
    if !r1.1 then ⟨-1, some r1.2.1, r1.2.2, src_img, dst_img⟩ else
    let r2 := invoke r1.2 .DevSetFormat ops.DevSetFormat
    if !r2.1 then ⟨-1, some r2.2.1, r2.2.2, src_img, dst_img⟩ else
    let r3 := invoke r2.2 .ReqBufs ops.ReqBufs
    if !r3.1 then ⟨-1, some r3.2.1, r3.2.2, src_img, dst_img⟩ else
    let q := ops.QBuf r3.2.1
    let fdSrcReleaseFence : Int := q.1.2.1
    let fdDstReleaseFence : Int := q.1.2.2
    let r4 := invoke r3.2 .QBuf (fun s => ((ops.QBuf s).1.1, (ops.QBuf s).2))
    if !r4.1 then ⟨-1, some r4.2.1, r4.2.2, src_img, dst_img⟩ else
    let r5 := invoke r4.2 .StreamOn ops.StreamOn
    if !r5.1 then
      ⟨-1, some r5.2.1, r5.2.2 ++ [.close fdSrcReleaseFence, .close fdDstReleaseFence],
        src_img, dst_img⟩
    else
    ⟨0, some r5.2.1, r5.2.2,
      { src_img with releaseFenceFd := fdSrcReleaseFence },
      { dst_img with releaseFenceFd := fdDstReleaseFence }⟩

/-! ## The blend entry point (lines 536–625) -/

/-- The methods of `CScalerBlendV4L2` used by
`exynos_sc_config_blend_exclusive`: those of `CScalerV4L2` and the blend
setters. `GetCustomAlphaBlendFmt` takes `src_color_space` by reference; it
returns the value that `src_color_space` holds after the call. -/
structure CScalerBlendV4L2 (σ : Type) extends CScalerV4L2 σ where
  GetCustomAlphaBlendFmt : σ → Int → Int → Int × σ
  SetSrcBlendOp : σ → Nat → σ
  SetSrcGlobalAlpha : σ → Nat → Nat → σ
  SetSrcBlendVPos : σ → Nat → σ
  SetSrcBlendHPos : σ → Nat → σ
  SetSrcBlendPremulti : σ → Nat → σ
  SetSrcBlendFmt : σ → Int → σ
  SetSrcBlendStride : σ → Nat → σ
  SetSrcBlendWidth : σ → Nat → σ
  SetSrcBlendHeight : σ → Nat → σ
  SetSrcBlendCSCSpace : σ → Nat → Nat → Nat → σ

/-- The function `GetScalerBlend`: `none` is the NULL pointer. -/
def GetScalerBlend {σ : Type} (ops : CScalerBlendV4L2 σ) (handle : Option σ) : Option σ :=
  match handle with
  | none => none
  | some sc => if !ops.Valid sc then none else some sc

/-- The function `exynos_sc_config_blend_exclusive`. -/
def exynos_sc_config_blend_exclusive {σ : Type} (HAL_PIXEL_FORMAT_2_V4L2_PIX : Nat → Int)
    (ops : CScalerBlendV4L2 σ) (handle : Option σ) (src_img dst_img : exynos_sc_img)
    (srcblendinfo : SrcBlendInfo) : Outcome σ Int :=
  match GetScalerBlend ops handle with
  | none => ⟨-1, handle, []⟩
  | some sc =>
    if src_img.drmMode != 0 && !ops.IsDRMAllowed sc then ⟨-1, some sc, []⟩ else
    let rfv := rot_flip dst_img.rot
    let r1 := invoke (sc, []) (.SetRotate rfv.1 rfv.2.1 rfv.2.2)
      (fun s => ops.SetRotate s rfv.1 rfv.2.1 rfv.2.2)
    if !r1.1 then ⟨-1, some r1.2.1, r1.2.2⟩ else
    let src_color_space : Int := HAL_PIXEL_FORMAT_2_V4L2_PIX src_img.format
    let dst_color_space : Int := HAL_PIXEL_FORMAT_2_V4L2_PIX dst_img.format
    let src_blend_color_space : Int := HAL_PIXEL_FORMAT_2_V4L2_PIX srcblendinfo.srcblendfmt
    let g := ops.GetCustomAlphaBlendFmt r1.2.1 src_color_space src_blend_color_space
    let s2 : Logged σ :=
      (g.2, r1.2.2 ++ [.GetCustomAlphaBlendFmt src_color_space src_blend_color_space])
    let src_color_space : Int := g.1
    if src_color_space < 0 then ⟨-1, some s2.1, s2.2⟩ else
    let s3 := invokeVoid s2 (.SetSrcBlendOp srcblendinfo.blop)
      (fun s => ops.SetSrcBlendOp s srcblendinfo.blop)
    let s4 := invokeVoid s3
      (.SetSrcGlobalAlpha srcblendinfo.globalalpha_val srcblendinfo.globalalpha_enable)
      (fun s => ops.SetSrcGlobalAlpha s srcblendinfo.globalalpha_val
        srcblendinfo.globalalpha_enable)
    let s5 := invokeVoid s4 (.SetSrcBlendVPos srcblendinfo.srcblendvpos)
      (fun s => ops.SetSrcBlendVPos s srcblendinfo.srcblendvpos)
    let s6 := invokeVoid s5 (.SetSrcBlendHPos srcblendinfo.srcblendhpos)
      (fun s => ops.SetSrcBlendHPos s srcblendinfo.srcblendhpos)
    let s7 := invokeVoid s6 (.SetSrcBlendPremulti srcblendinfo.srcblendpremulti)
      (fun s => ops.SetSrcBlendPremulti s srcblendinfo.srcblendpremulti)
    let s8 := invokeVoid s7 (.SetSrcBlendFmt src_blend_color_space)
      (fun s => ops.SetSrcBlendFmt s src_blend_color_space)
    let s9 := invokeVoid s8 (.SetSrcBlendStride srcblendinfo.srcblendstride)
      (fun s => ops.SetSrcBlendStride s srcblendinfo.srcblendstride)
    let s10 := invokeVoid s9 (.SetSrcBlendWidth srcblendinfo.srcblendwidth)
      (fun s => ops.SetSrcBlendWidth s srcblendinfo.srcblendwidth)
    let s11 := invokeVoid s10 (.SetSrcBlendHeight srcblendinfo.srcblendheight)
      (fun s => ops.SetSrcBlendHeight s srcblendinfo.srcblendheight)
    let s12 := invokeVoid s11
      (.SetSrcBlendCSCSpace srcblendinfo.cscspec_enable srcblendinfo.cscspec_space
        srcblendinfo.cscspec_wide)
      (fun s => ops.SetSrcBlendCSCSpace s srcblendinfo.cscspec_enable
        srcblendinfo.cscspec_space srcblendinfo.cscspec_wide)
    let r13 := invoke s12 (.SetSrcFormat src_img.fw src_img.fh (toUnsigned src_color_space))
      (fun s => ops.SetSrcFormat s src_img.fw src_img.fh (toUnsigned src_color_space))
    if !r13.1 then ⟨-1, some r13.2.1, r13.2.2⟩ else
    let r14 := invoke r13.2 (.SetSrcCrop src_img.x src_img.y src_img.w src_img.h)
      (fun s => ops.SetSrcCrop s src_img.x src_img.y src_img.w src_img.h)
    if !r14.1 then ⟨-1, some r14.2.1, r14.2.2⟩ else
    let r15 := invoke r14.2 (.SetDstFormat dst_img.fw dst_img.fh (toUnsigned dst_color_space))
      (fun s => ops.SetDstFormat s dst_img.fw dst_img.fh (toUnsigned dst_color_space))
    if !r15.1 then ⟨-1, some r15.2.1, r15.2.2⟩ else
    let r16 := invoke r15.2 (.SetDstCrop dst_img.x dst_img.y dst_img.w dst_img.h)
      (fun s => ops.SetDstCrop s dst_img.x dst_img.y dst_img.w dst_img.h)
    if !r16.1 then ⟨-1, some r16.2.1, r16.2.2⟩ else
    let s17 := invokeVoid r16.2 (.SetSrcCacheable (src_img.cacheable != 0))
      (fun s => ops.SetSrcCacheable s (src_img.cacheable != 0))
    let s18 := invokeVoid s17 (.SetDstCacheable (dst_img.cacheable != 0))
      (fun s => ops.SetDstCacheable s (dst_img.cacheable != 0))
    let s19 := invokeVoid s18 (.SetDRM (src_img.drmMode != 0 || dst_img.drmMode != 0))
      (fun s => ops.SetDRM s (src_img.drmMode != 0 || dst_img.drmMode != 0))
    ⟨0, some s19.1, s19.2⟩

/-! ## A recording model of the session classes

The classes themselves are not part of `libscaler.cpp`. The model below follows
the description of the session in the specification (§3, §4.2–§4.4) and stands in
for the kernel device with a script of step results. It is used to evaluate the
entry points on concrete inputs. -/

/-- Modelled from the spec: the image descriptor of §3 (class `FrameInfo` is
not in `libscaler.cpp`): frame size and format, crop rectangle, cacheable and
premultiplied flags, bound plane addresses with memory type and input fence. -/
structure ImageDescriptor where
  frame : Option (Nat × Nat × Nat)
  crop : Option (Nat × Nat × Nat × Nat)
  cacheable : Bool
  premultiplied : Bool
  bound : Option (PlaneAddr × Int × Int)
deriving Repr, DecidableEq

/-- Modelled from the spec: the session of §3 (classes `CScalerV4L2`,
`CScalerM2M1SHOT` and `CScalerBlendV4L2` are not in `libscaler.cpp`). `device`
scripts the kernel device: each device step takes the next result off the
script and succeeds once the script is empty; `fences` are the release fences
that the queue step hands out; `blendTable` lists the (source format,
blend-source format) pairs the device can blend, with the combined format. -/
structure Session where
  valid : Bool
  drmAllowed : Bool
  drm : Bool
  src : ImageDescriptor
  dst : ImageDescriptor
  rotation : Nat × Nat × Nat
  cscWide : Bool
  blendOp : Option Nat
  blendParams : List Nat
  device : List Bool
  fences : Int × Int
  blendTable : List ((Int × Int) × Int)
deriving Repr, DecidableEq

namespace Session

/-- Modelled from the spec: `validateCrop` of §4.2 and §8, "succeeds iff
`left+w ≤ frameW ∧ top+h ≤ frameH`"; the setter stores the crop on success and
leaves the descriptor unchanged on failure (§4.4). -/
def setCrop (d : ImageDescriptor) (left top w h : Nat) : Bool × ImageDescriptor :=
  match d.frame with
  | none => (false, d)
  | some (fw, fh, _) =>
    if left + w ≤ fw ∧ top + h ≤ fh then (true, { d with crop := some (left, top, w, h) })
    else (false, d)

/-- Modelled from the spec: the format setter of a descriptor (§3) stores the
frame size and the format. -/
def setFormat (d : ImageDescriptor) (w h fmt : Nat) : Bool × ImageDescriptor :=
  (true, { d with frame := some (w, h, fmt) })

/-- Modelled from the spec: `bind` of §4.3, "fails with `NotConfigured` if the
corresponding descriptor format/crop has not yet been set", and stores the
addresses verbatim otherwise. -/
def bind (d : ImageDescriptor) (addr : PlaneAddr) (mem_type fence : Int) :
    Bool × ImageDescriptor :=
  if d.frame.isSome ∧ d.crop.isSome then (true, { d with bound := some (addr, mem_type, fence) })
  else (false, d)

/-- Modelled from the spec: a step of the kernel device (out of scope in §1),
scripted by `device`. -/
def deviceStep (s : Session) : Bool × Session :=
  match s.device with
  | [] => (true, s)
  | r :: rest => (r, { s with device := rest })

/-- Modelled from the spec: the blend compatibility check of §4.5, a lookup of
the pair in the table of the device; a pair that is not listed yields a negative
format. -/
def customAlphaBlendFmt (s : Session) (fmt blendFmt : Int) : Int × Session :=
  match s.blendTable.lookup (fmt, blendFmt) with
  | some c => (c, s)
  | none => (-1, s)

/-- Modelled from the spec: class `CScalerV4L2` (not in `libscaler.cpp`) over
the session of §3. -/
def v4l2 : CScalerV4L2 Session where
  Valid s := s.valid
  IsDRMAllowed s := s.drmAllowed
  Stop := deviceStep
  SetRotate s r h v := (true, { s with rotation := (r, h, v) })
  SetSrcFormat s w h f := ((setFormat s.src w h f).1, { s with src := (setFormat s.src w h f).2 })
  SetDstFormat s w h f := ((setFormat s.dst w h f).1, { s with dst := (setFormat s.dst w h f).2 })
  SetSrcCrop s l t w h := ((setCrop s.src l t w h).1, { s with src := (setCrop s.src l t w h).2 })
  SetDstCrop s l t w h := ((setCrop s.dst l t w h).1, { s with dst := (setCrop s.dst l t w h).2 })
  SetCSCWide s b := { s with cscWide := b }
  SetSrcCacheable s b := { s with src := { s.src with cacheable := b } }
  SetDstCacheable s b := { s with dst := { s.dst with cacheable := b } }
  SetSrcPremultiplied s b := { s with src := { s.src with premultiplied := b } }
  SetDstPremultiplied s b := { s with dst := { s.dst with premultiplied := b } }
  SetDRM s b := { s with drm := b }
  SetSrcAddr s a m f := ((bind s.src a m f).1, { s with src := (bind s.src a m f).2 })
  SetDstAddr s a m f := ((bind s.dst a m f).1, { s with dst := (bind s.dst a m f).2 })
  DevSetCtrl := deviceStep
  DevSetFormat := deviceStep
  ReqBufs := deviceStep
  QBuf s := (((deviceStep s).1, s.fences.1, s.fences.2), (deviceStep s).2)
  StreamOn := deviceStep

/-- Modelled from the spec: class `CScalerNonStream` (not in `libscaler.cpp`),
the same session driven through the blocking entry points. -/
def nonStream : CScalerNonStream Session where
  Valid := v4l2.Valid
  Stop := v4l2.Stop
  SetSrcPremultiplied := v4l2.SetSrcPremultiplied
  SetDstPremultiplied := v4l2.SetDstPremultiplied
  SetSrcCacheable := v4l2.SetSrcCacheable
  SetDstCacheable := v4l2.SetDstCacheable
  SetDRM := v4l2.SetDRM
  SetSrcFormat := v4l2.SetSrcFormat
  SetDstFormat := v4l2.SetDstFormat
  SetSrcCrop := v4l2.SetSrcCrop
  SetDstCrop := v4l2.SetDstCrop

/-- Modelled from the spec: class `CScalerBlendV4L2` (not in `libscaler.cpp`),
the session with the blend descriptor of §3. -/
def blend : CScalerBlendV4L2 Session where
  toCScalerV4L2 := v4l2
  GetCustomAlphaBlendFmt := customAlphaBlendFmt
  SetSrcBlendOp s op := { s with blendOp := some op }
  SetSrcGlobalAlpha s v e := { s with blendParams := s.blendParams ++ [v, e] }
  SetSrcBlendVPos s x := { s with blendParams := s.blendParams ++ [x] }
  SetSrcBlendHPos s x := { s with blendParams := s.blendParams ++ [x] }
  SetSrcBlendPremulti s x := { s with blendParams := s.blendParams ++ [x] }
  SetSrcBlendFmt s x := { s with blendParams := s.blendParams ++ [toUnsigned x] }
  SetSrcBlendStride s x := { s with blendParams := s.blendParams ++ [x] }
  SetSrcBlendWidth s x := { s with blendParams := s.blendParams ++ [x] }
  SetSrcBlendHeight s x := { s with blendParams := s.blendParams ++ [x] }
  SetSrcBlendCSCSpace s e c w := { s with blendParams := s.blendParams ++ [e, c, w] }

/-- Modelled from the spec: a descriptor on which nothing has been set. -/
def emptyDescriptor : ImageDescriptor := ⟨none, none, false, false, none⟩

/-- Modelled from the spec: the session in state `Created` of §4.4, as the
constructor leaves it for an `allow_drm` flag; its device accepts every step,
hands out the release fences 10 and 11, and blends one pair only: source format
1 with blend-source format 3, as the combined format 13. -/
def created (allow_drm : Bool) : Session :=
  { valid := true, drmAllowed := allow_drm, drm := false,
    src := emptyDescriptor, dst := emptyDescriptor, rotation := (0, 0, 0),
    cscWide := false, blendOp := none, blendParams := [], device := [],
    fences := (10, 11), blendTable := [((1, 3), 13)] }

/-- Modelled from the spec: class `CScalerM2M1SHOT` (not in `libscaler.cpp`),
the session of the one-shot facade of §4.6. -/
def m2m1shot : CScalerM2M1SHOT Session where
  ctor _ := created false
  Valid := v4l2.Valid
  SetSrcFormat := v4l2.SetSrcFormat
  SetDstFormat := v4l2.SetDstFormat
  SetSrcCrop := v4l2.SetSrcCrop
  SetDstCrop := v4l2.SetDstCrop
  SetRotate := v4l2.SetRotate
  SetSrcAddr s a m := v4l2.SetSrcAddr s a m (-1)
  SetDstAddr s a m := v4l2.SetDstAddr s a m (-1)
  Run := deviceStep

end Session

/-- An image descriptor argument: a `fw`×`fh` frame of format `format`, cropped
to the whole frame, with the given transform code and DRM mode. -/
def img (fw fh format rot drmMode : Nat) : exynos_sc_img :=
  { x := 0, y := 0, w := fw, h := fh, fw := fw, fh := fh, format := format,
    yaddr := 4096, uaddr := 0, vaddr := 0, rot := rot, cacheable := 1,
    drmMode := drmMode, narrowRgb := 0, acquireFenceFd := -1, releaseFenceFd := -1,
    mem_type := 2, pre_multi := 0 }

/-- A translation `HAL_PIXEL_FORMAT_2_V4L2_PIX` used on concrete inputs: it
maps every format code to itself. -/
def pixOfHal (f : Nat) : Int := f

/-- The pixel format constants used on concrete inputs: the `EXYNOS_SC_FMT_*`
values 16 to 20 and the V4L2 four-character codes. -/
def pixelFormats : PixelFormats :=
  { EXYNOS_SC_FMT_RGB32 := 16, EXYNOS_SC_FMT_BGR32 := 17, EXYNOS_SC_FMT_RGB565 := 18,
    EXYNOS_SC_FMT_RGB555X := 19, EXYNOS_SC_FMT_RGB444 := 20,
    V4L2_PIX_FMT_RGB32 := 876758866, V4L2_PIX_FMT_BGR32 := 877807426,
    V4L2_PIX_FMT_RGB565 := 1346520914, V4L2_PIX_FMT_RGB555X := 1363298130,
    V4L2_PIX_FMT_RGB444 := 875836498 }

/-- The formats that `find_pixel` knows: the first column of `sc_fmt_tbl`. -/
def knownFormats (K : PixelFormats) : List Nat :=
  [K.EXYNOS_SC_FMT_RGB32, K.EXYNOS_SC_FMT_BGR32, K.EXYNOS_SC_FMT_RGB565,
    K.EXYNOS_SC_FMT_RGB555X, K.EXYNOS_SC_FMT_RGB444]

/-- A pixel copy request between two frames of the given formats. -/
def pxinfoOf (srcfmt dstfmt : Nat) : exynos_sc_pxinfo :=
  { src := ⟨4096, 64, 64, 0, 0, 64, 64, srcfmt⟩, dst := ⟨8192, 32, 32, 0, 0, 32, 32, dstfmt⟩,
    rotate := 0, hflip := 0, vflip := 0 }

/-! ## Definitions used in the statements -/

/-- A session whose device refuses the next step. -/
def refusing : Session := { Session.created false with device := [false] }

/-- A session object that fails `Valid()`. -/
def invalid : Session := { Session.created false with valid := false }

/-- The transform derivation as the specification words it (§4.2): the literal
270 code gives (270, 0, 0); otherwise the rotation is 90 iff bit `ROT_90` (bit 2)
is set and each flip is 1 iff its bit (bit 0 for H, bit 1 for V) is set. -/
def deriveTransform (t : Nat) : Nat × Nat × Nat :=
  if t = 7 then (270, 0, 0)
  else (if t.testBit 2 then 90 else 0, if t.testBit 0 then 1 else 0, if t.testBit 1 then 1 else 0)

/-- A blend request with blend-source format `fmt` and blend operator `blop`. -/
def blendInfo (blop fmt : Nat) : SrcBlendInfo :=
  { blop := blop, globalalpha_val := 255, globalalpha_enable := 1, srcblendvpos := 0,
    srcblendhpos := 0, srcblendpremulti := 0, srcblendfmt := fmt, srcblendstride := 64,
    srcblendwidth := 64, srcblendheight := 64, cscspec_enable := 0, cscspec_space := 0,
    cscspec_wide := 0 }

/-- The calls of a complete `exynos_sc_config_blend_exclusive`, in order;
`custom` is the source format that `GetCustomAlphaBlendFmt` left in
`src_color_space`. -/
def config_blend_calls (HAL_PIXEL_FORMAT_2_V4L2_PIX : Nat → Int)
    (src_img dst_img : exynos_sc_img) (srcblendinfo : SrcBlendInfo) (custom : Int) : List Call :=
  [ .SetRotate (rot_flip dst_img.rot).1 (rot_flip dst_img.rot).2.1 (rot_flip dst_img.rot).2.2,
    .GetCustomAlphaBlendFmt (HAL_PIXEL_FORMAT_2_V4L2_PIX src_img.format)
      (HAL_PIXEL_FORMAT_2_V4L2_PIX srcblendinfo.srcblendfmt),
    .SetSrcBlendOp srcblendinfo.blop,
    .SetSrcGlobalAlpha srcblendinfo.globalalpha_val srcblendinfo.globalalpha_enable,
    .SetSrcBlendVPos srcblendinfo.srcblendvpos,
    .SetSrcBlendHPos srcblendinfo.srcblendhpos,
    .SetSrcBlendPremulti srcblendinfo.srcblendpremulti,
    .SetSrcBlendFmt (HAL_PIXEL_FORMAT_2_V4L2_PIX srcblendinfo.srcblendfmt),
    .SetSrcBlendStride srcblendinfo.srcblendstride,
    .SetSrcBlendWidth srcblendinfo.srcblendwidth,
    .SetSrcBlendHeight srcblendinfo.srcblendheight,
    .SetSrcBlendCSCSpace srcblendinfo.cscspec_enable srcblendinfo.cscspec_space
      srcblendinfo.cscspec_wide,
    .SetSrcFormat src_img.fw src_img.fh (toUnsigned custom),
    .SetSrcCrop src_img.x src_img.y src_img.w src_img.h,
    .SetDstFormat dst_img.fw dst_img.fh (toUnsigned (HAL_PIXEL_FORMAT_2_V4L2_PIX dst_img.format)),
    .SetDstCrop dst_img.x dst_img.y dst_img.w dst_img.h,
    .SetSrcCacheable (src_img.cacheable != 0),
    .SetDstCacheable (dst_img.cacheable != 0),
    .SetDRM (src_img.drmMode != 0 || dst_img.drmMode != 0) ]

/-- The calls of a complete `exynos_sc_config_exclusive`, in order. -/
def config_calls (HAL_PIXEL_FORMAT_2_V4L2_PIX : Nat → Int)
    (src_img dst_img : exynos_sc_img) : List Call :=
  [ .SetRotate (rot_flip dst_img.rot).1 (rot_flip dst_img.rot).2.1 (rot_flip dst_img.rot).2.2,
    .SetSrcFormat src_img.fw src_img.fh (toUnsigned (HAL_PIXEL_FORMAT_2_V4L2_PIX src_img.format)),
    .SetSrcCrop src_img.x src_img.y src_img.w src_img.h,
    .SetDstFormat dst_img.fw dst_img.fh (toUnsigned (HAL_PIXEL_FORMAT_2_V4L2_PIX dst_img.format)),
    .SetDstCrop dst_img.x dst_img.y dst_img.w dst_img.h,
    .SetCSCWide (dst_img.narrowRgb == 0),
    .SetSrcCacheable (src_img.cacheable != 0),
    .SetDstCacheable (dst_img.cacheable != 0),
    .SetSrcPremultiplied (src_img.pre_multi != 0),
    .SetDstPremultiplied (dst_img.pre_multi != 0),
    .SetDRM (src_img.drmMode != 0 || dst_img.drmMode != 0) ]

/-- The device steps among the calls of a log. -/
def deviceSteps (calls : List Call) : List Call :=
  calls.filter (fun c => c = .DevSetCtrl ∨ c = .DevSetFormat ∨ c = .ReqBufs ∨ c = .QBuf ∨
    c = .StreamOn)

/-- The descriptors closed in a log, in order. -/
def closedFds (calls : List Call) : List Int :=
  calls.filterMap (fun c => match c with
    | .close fd => some fd
    | _ => none)

/-- The sequencing contract of §4.5 as the specification words it: the steps
are attempted in order and a failing step aborts the remainder. -/
def stepsUntilFailure : List (Call × Bool) → List Call
  | [] => []
  | (c, ok) :: rest => c :: (if ok then stepsUntilFailure rest else [])

/-- The session after `exynos_sc_run_exclusive` has bound both sides. -/
def boundSession {σ : Type} (ops : CScalerV4L2 σ) (sc : σ) (src_img dst_img : exynos_sc_img) : σ :=
  (ops.SetDstAddr
    (ops.SetSrcAddr sc ⟨src_img.yaddr, src_img.uaddr, src_img.vaddr⟩ src_img.mem_type
      src_img.acquireFenceFd).2
    ⟨dst_img.yaddr, dst_img.uaddr, dst_img.vaddr⟩ dst_img.mem_type dst_img.acquireFenceFd).2

/-- A session whose device accepts the first `n` steps and refuses the next. -/
def refusingAfter (n : Nat) : Session :=
  { Session.created false with device := List.replicate n true ++ [false] }

/-- The `SetRotate` call of the configure entry points: the method `SetRotate`
of the class applied to the session with the triple derived from the transform
code `t`. Its first component is the returned `bool`, its second the session
the call leaves. -/
def setRotateCall {σ : Type} (SetRotate : σ → Nat → Nat → Nat → Bool × σ) (sc : σ) (t : Nat) :
    Bool × σ :=
  SetRotate sc (deriveTransform t).1 (deriveTransform t).2.1 (deriveTransform t).2.2

/-- C9: `find_pixel` succeeds exactly on the five formats of its table and
then stores the V4L2 code of the same name; on any other value it returns false
and leaves the output location as it was; `exynos_sc_copy_pixels` with an
unknown source or destination format returns false and calls no method of the
session. The five `EXYNOS_SC_FMT_*` constants are distinct. -/
theorem find_pixel_resolves (K : PixelFormats) (hK : (knownFormats K).Nodup)
    (f out : Nat) {σ : Type} (ops : CScalerM2M1SHOT σ) (pxinfo : exynos_sc_pxinfo)
    (dev_num : Int) :
    ((find_pixel K f out).1 = true ↔ f ∈ knownFormats K) ∧
    find_pixel K K.EXYNOS_SC_FMT_RGB32 out = (true, K.V4L2_PIX_FMT_RGB32) ∧
    find_pixel K K.EXYNOS_SC_FMT_BGR32 out = (true, K.V4L2_PIX_FMT_BGR32) ∧
    find_pixel K K.EXYNOS_SC_FMT_RGB565 out = (true, K.V4L2_PIX_FMT_RGB565) ∧
    find_pixel K K.EXYNOS_SC_FMT_RGB555X out = (true, K.V4L2_PIX_FMT_RGB555X) ∧
    find_pixel K K.EXYNOS_SC_FMT_RGB444 out = (true, K.V4L2_PIX_FMT_RGB444) ∧
    (f ∉ knownFormats K → find_pixel K f out = (false, out)) ∧
    (pxinfo.src.pxfmt ∉ knownFormats K ∨ pxinfo.dst.pxfmt ∉ knownFormats K →
      exynos_sc_copy_pixels K ops pxinfo dev_num = (false, [])) := by
  simp only [knownFormats, List.nodup_cons, List.mem_cons, List.mem_singleton, not_or,
    List.not_mem_nil, List.nodup_nil, or_false, and_true, not_false_eq_true] at hK ⊢
  obtain ⟨⟨h12, h13, h14, h15⟩, ⟨h23, h24, h25⟩, ⟨h34, h35⟩, h45⟩ := hK
  have hmiss : ∀ g o : Nat, (¬g = K.EXYNOS_SC_FMT_RGB32 ∧ ¬g = K.EXYNOS_SC_FMT_BGR32 ∧
      ¬g = K.EXYNOS_SC_FMT_RGB565 ∧ ¬g = K.EXYNOS_SC_FMT_RGB555X ∧
      ¬g = K.EXYNOS_SC_FMT_RGB444) → find_pixel K g o = (false, o) := by
    intro g o ⟨a, b, c, d, e⟩
    simp [find_pixel, sc_fmt_tbl, find_pixel_loop, a, b, c, d, e]
  refine ⟨?_, ?_, ?_, ?_, ?_, ?_, hmiss f out, ?_⟩
  · simp only [find_pixel, sc_fmt_tbl, find_pixel_loop]
    split_ifs <;> simp_all
  · simp [find_pixel, sc_fmt_tbl, find_pixel_loop]
  · simp [find_pixel, sc_fmt_tbl, find_pixel_loop, Ne.symm h12]
  · simp [find_pixel, sc_fmt_tbl, find_pixel_loop, Ne.symm h13, Ne.symm h23]
  · simp [find_pixel, sc_fmt_tbl, find_pixel_loop, Ne.symm h14, Ne.symm h24, Ne.symm h34]
  · simp [find_pixel, sc_fmt_tbl, find_pixel_loop, Ne.symm h15, Ne.symm h25, Ne.symm h35,
      Ne.symm h45]
  · intro h
    unfold exynos_sc_copy_pixels
    rcases h with h | h
    · simp [hmiss _ 0 h]
    · by_cases hv : ops.Valid (ops.ctor dev_num) = true
      · by_cases hs : (find_pixel K pxinfo.src.pxfmt 0).1 = true
        · simp [hmiss _ 0 h, hv, hs]
        · simp [hv, hs]
      · simp [hv]

/-- Witness of `find_pixel_resolves`: RGB565 resolves, the value 21 does not,
and a copy to a frame of format 21 makes no call. -/
theorem find_pixel_resolves_witness :
    (knownFormats pixelFormats).Nodup ∧
    find_pixel pixelFormats 18 7 = (true, 1346520914) ∧
    find_pixel pixelFormats 21 7 = (false, 7) ∧
    exynos_sc_copy_pixels pixelFormats Session.m2m1shot (pxinfoOf 16 21) 0 = (false, []) :=
  have h := find_pixel_resolves pixelFormats (by decide) 21 7 Session.m2m1shot (pxinfoOf 16 21) 0
  ⟨by decide, h.2.2.2.1, h.2.2.2.2.2.2.1 (by decide), h.2.2.2.2.2.2.2 (Or.inr (by decide))⟩

/-- C8: on a valid handle `exynos_sc_destroy` and `exynos_sc_free_and_close`
call `Stop` once, then delete the session whatever `Stop` returned, and return
0 when `Stop` succeeded and -1 when it failed; on a NULL or invalid handle they
return -1, call nothing and delete nothing. -/
theorem destroy_best_effort {σ : Type} (nops : CScalerNonStream σ) (ops : CScalerV4L2 σ)
    (handle : Option σ) :
    (∀ sc, handle = some sc → nops.Valid sc = true →
      exynos_sc_destroy nops handle =
        ⟨if (nops.Stop sc).1 = true then 0 else -1, none, [.Stop, .delete]⟩) ∧
    (handle = none ∨ (∃ sc, handle = some sc ∧ nops.Valid sc = false) →
      exynos_sc_destroy nops handle = ⟨-1, handle, []⟩) ∧
    (∀ sc, handle = some sc → ops.Valid sc = true →
      exynos_sc_free_and_close ops handle =
        ⟨if (ops.Stop sc).1 = true then 0 else -1, none, [.Stop, .delete]⟩) ∧
    (handle = none ∨ (∃ sc, handle = some sc ∧ ops.Valid sc = false) →
      exynos_sc_free_and_close ops handle = ⟨-1, handle, []⟩) := by
  refine ⟨?_, ?_, ?_, ?_⟩
  · rintro sc rfl hv
    cases hs : (nops.Stop sc).1 <;>
      simp [exynos_sc_destroy, GetNonStreamScaler, invoke, hv, hs]
  · rintro (rfl | ⟨sc, rfl, hv⟩)
    · simp [exynos_sc_destroy, GetNonStreamScaler]
    · simp [exynos_sc_destroy, GetNonStreamScaler, hv]
  · rintro sc rfl hv
    cases hs : (ops.Stop sc).1 <;>
      simp [exynos_sc_free_and_close, GetScaler, invoke, hv, hs]
  · rintro (rfl | ⟨sc, rfl, hv⟩)
    · simp [exynos_sc_free_and_close, GetScaler]
    · simp [exynos_sc_free_and_close, GetScaler, hv]

/-- Witness of `destroy_best_effort`: a session whose `Stop` fails is deleted
all the same and -1 is returned; an invalid handle is left alone. -/
theorem destroy_best_effort_witness :
    exynos_sc_destroy Session.nonStream (some refusing) = ⟨-1, none, [.Stop, .delete]⟩ ∧
    exynos_sc_free_and_close Session.v4l2 (some refusing) = ⟨-1, none, [.Stop, .delete]⟩ ∧
    exynos_sc_destroy Session.nonStream (some invalid) = ⟨-1, some invalid, []⟩ ∧
    exynos_sc_free_and_close Session.v4l2 (some invalid) = ⟨-1, some invalid, []⟩ :=
  ⟨(destroy_best_effort Session.nonStream Session.v4l2 (some refusing)).1 refusing rfl rfl,
   (destroy_best_effort Session.nonStream Session.v4l2 (some refusing)).2.2.1 refusing rfl rfl,
   (destroy_best_effort Session.nonStream Session.v4l2 (some invalid)).2.1
     (Or.inr ⟨invalid, rfl, rfl⟩),
   (destroy_best_effort Session.nonStream Session.v4l2 (some invalid)).2.2.2
     (Or.inr ⟨invalid, rfl, rfl⟩)⟩

/-- C4: on a valid session that does not allow DRM, a source descriptor with a
non-zero `drmMode` makes `exynos_sc_config_exclusive` return -1 with no call
made on the session, which is left exactly as it was. -/
theorem config_exclusive_drm_denied {σ : Type} (HAL_PIXEL_FORMAT_2_V4L2_PIX : Nat → Int)
    (ops : CScalerV4L2 σ) (sc : σ) (src_img dst_img : exynos_sc_img)
    (hv : ops.Valid sc = true) (hd : ops.IsDRMAllowed sc = false) (hs : src_img.drmMode ≠ 0) :
    exynos_sc_config_exclusive HAL_PIXEL_FORMAT_2_V4L2_PIX ops (some sc) src_img dst_img =
      ⟨-1, some sc, []⟩ := by
  simp [exynos_sc_config_exclusive, GetScaler, hv, hd, hs]

/-- Witness of `config_exclusive_drm_denied`: scenario C of the specification,
a session opened without DRM permission and a source with `drmMode = 1`. -/
theorem config_exclusive_drm_denied_witness :
    Session.v4l2.Valid (Session.created false) = true ∧
    Session.v4l2.IsDRMAllowed (Session.created false) = false ∧
    (img 64 64 1 0 1).drmMode ≠ 0 ∧
    exynos_sc_config_exclusive pixOfHal Session.v4l2 (some (Session.created false))
      (img 64 64 1 0 1) (img 32 32 1 0 0) = ⟨-1, some (Session.created false), []⟩ :=
  ⟨rfl, rfl, by decide,
    config_exclusive_drm_denied pixOfHal Session.v4l2 (Session.created false)
      (img 64 64 1 0 1) (img 32 32 1 0 0) rfl rfl (by decide)⟩

/-- The log after a `bool` method call is the log before it with the call appended. -/
theorem invoke_log {σ : Type} (st : Logged σ) (c : Call) (m : σ → Bool × σ) :
    (invoke st c m).2.2 = st.2 ++ [c] := rfl

/-- The log after a call whose result is not read. -/
theorem invokeVoid_log {σ : Type} (st : Logged σ) (c : Call) (m : σ → σ) :
    (invokeVoid st c m).2 = st.2 ++ [c] := rfl

/-- A mask with the single bit `i` selects bit `i`. -/
theorem land_two_pow_ne_zero (t i : Nat) : t &&& 2 ^ i ≠ 0 ↔ t.testBit i = true := by
  rw [Nat.and_two_pow]
  cases t.testBit i <;> simp

/-- The block of lines 417–430 computes the derivation of §4.2. -/
theorem rot_flip_eq (t : Nat) : rot_flip t = deriveTransform t := by
  have h0 := land_two_pow_ne_zero t 0
  have h1 := land_two_pow_ne_zero t 1
  have h2 := land_two_pow_ne_zero t 2
  norm_num at h0 h1 h2
  unfold rot_flip deriveTransform HAL_TRANSFORM_ROT_270 HAL_TRANSFORM_FLIP_H
    HAL_TRANSFORM_FLIP_V HAL_TRANSFORM_ROT_90
  by_cases h7 : t = 7
  · simp [h7]
  · simp only [h7, if_false]
    by_cases b0 : t.testBit 0 = true <;> by_cases b1 : t.testBit 1 = true <;>
      by_cases b2 : t.testBit 2 = true <;> simp_all

/-- The calls of `exynos_sc_config_blend_exclusive` are an initial part of
`config_blend_calls`. -/
theorem config_blend_calls_initial {σ : Type} (HAL_PIXEL_FORMAT_2_V4L2_PIX : Nat → Int)
    (ops : CScalerBlendV4L2 σ) (handle : Option σ) (src_img dst_img : exynos_sc_img)
    (srcblendinfo : SrcBlendInfo) :
    ∃ custom, (exynos_sc_config_blend_exclusive HAL_PIXEL_FORMAT_2_V4L2_PIX ops handle src_img
      dst_img srcblendinfo).calls <+:
        config_blend_calls HAL_PIXEL_FORMAT_2_V4L2_PIX src_img dst_img srcblendinfo custom := by
  unfold exynos_sc_config_blend_exclusive
  split
  · exact ⟨0, _, rfl⟩
  · rename_i sc hh
    refine ⟨(ops.GetCustomAlphaBlendFmt (ops.SetRotate sc (rot_flip dst_img.rot).1
      (rot_flip dst_img.rot).2.1 (rot_flip dst_img.rot).2.2).2
      (HAL_PIXEL_FORMAT_2_V4L2_PIX src_img.format)
      (HAL_PIXEL_FORMAT_2_V4L2_PIX srcblendinfo.srcblendfmt)).1, ?_⟩
    unfold config_blend_calls
    split
    · exact ⟨_, rfl⟩
    dsimp only
    split
    · simp only [invoke_log, invokeVoid_log, List.nil_append, List.cons_append, List.append_assoc]
      exact ⟨_, rfl⟩
    split
    · simp only [invoke_log, invokeVoid_log, List.nil_append, List.cons_append, List.append_assoc]
      exact ⟨_, rfl⟩
    split
    · simp only [invoke_log, invokeVoid_log, List.nil_append, List.cons_append, List.append_assoc]
      exact ⟨_, rfl⟩
    split
    · simp only [invoke_log, invokeVoid_log, List.nil_append, List.cons_append, List.append_assoc]
      exact ⟨_, rfl⟩
    split
    · simp only [invoke_log, invokeVoid_log, List.nil_append, List.cons_append, List.append_assoc]
      exact ⟨_, rfl⟩
    split
    · simp only [invoke_log, invokeVoid_log, List.nil_append, List.cons_append, List.append_assoc]
      exact ⟨_, rfl⟩
    · simp only [invoke_log, invokeVoid_log, List.nil_append, List.cons_append, List.append_assoc]
      exact ⟨_, rfl⟩

/-- The calls of `exynos_sc_config_exclusive` are an initial part of
`config_calls`. -/
theorem config_calls_initial {σ : Type} (HAL_PIXEL_FORMAT_2_V4L2_PIX : Nat → Int)
    (ops : CScalerV4L2 σ) (handle : Option σ) (src_img dst_img : exynos_sc_img) :
    (exynos_sc_config_exclusive HAL_PIXEL_FORMAT_2_V4L2_PIX ops handle src_img dst_img).calls <+:
      config_calls HAL_PIXEL_FORMAT_2_V4L2_PIX src_img dst_img := by
  unfold exynos_sc_config_exclusive config_calls
  split
  · exact ⟨_, rfl⟩
  split
  · exact ⟨_, rfl⟩
  dsimp only
  split
  · simp only [invoke_log, invokeVoid_log, List.nil_append, List.cons_append, List.append_assoc]
    exact ⟨_, rfl⟩
  split
  · simp only [invoke_log, invokeVoid_log, List.nil_append, List.cons_append, List.append_assoc]
    exact ⟨_, rfl⟩
  split
  · simp only [invoke_log, invokeVoid_log, List.nil_append, List.cons_append, List.append_assoc]
    exact ⟨_, rfl⟩
  split
  · simp only [invoke_log, invokeVoid_log, List.nil_append, List.cons_append, List.append_assoc]
    exact ⟨_, rfl⟩
  split
  · simp only [invoke_log, invokeVoid_log, List.nil_append, List.cons_append, List.append_assoc]
    exact ⟨_, rfl⟩
  · simp only [invoke_log, invokeVoid_log, List.nil_append, List.cons_append, List.append_assoc]
    exact ⟨_, rfl⟩

/-- On a valid handle that passes the DRM check, the first call of
`exynos_sc_config_exclusive` is `SetRotate`. -/
theorem config_calls_head {σ : Type} (HAL_PIXEL_FORMAT_2_V4L2_PIX : Nat → Int)
    (ops : CScalerV4L2 σ) (sc : σ) (src_img dst_img : exynos_sc_img)
    (hv : ops.Valid sc = true) (hd : src_img.drmMode = 0 ∨ ops.IsDRMAllowed sc = true) :
    (exynos_sc_config_exclusive HAL_PIXEL_FORMAT_2_V4L2_PIX ops (some sc) src_img dst_img).calls.head?
      = some (.SetRotate (rot_flip dst_img.rot).1 (rot_flip dst_img.rot).2.1
          (rot_flip dst_img.rot).2.2) := by
  have hg : ¬ (src_img.drmMode != 0 && !ops.IsDRMAllowed sc) = true := by
    rcases hd with hd | hd <;> simp [hd]
  unfold exynos_sc_config_exclusive
  split
  · rename_i hh
    simp [GetScaler, hv] at hh
  rename_i sc1 hh
  simp only [GetScaler, hv, Bool.not_true, Bool.false_eq_true, if_false, Option.some.injEq] at hh
  subst hh
  rw [if_neg hg]
  dsimp only
  split
  · simp only [invoke_log, invokeVoid_log, List.nil_append, List.cons_append, List.append_assoc,
      List.head?_cons]
  split
  · simp only [invoke_log, invokeVoid_log, List.nil_append, List.cons_append, List.append_assoc,
      List.head?_cons]
  split
  · simp only [invoke_log, invokeVoid_log, List.nil_append, List.cons_append, List.append_assoc,
      List.head?_cons]
  split
  · simp only [invoke_log, invokeVoid_log, List.nil_append, List.cons_append, List.append_assoc,
      List.head?_cons]
  split
  · simp only [invoke_log, invokeVoid_log, List.nil_append, List.cons_append, List.append_assoc,
      List.head?_cons]
  · simp only [invoke_log, invokeVoid_log, List.nil_append, List.cons_append, List.append_assoc,
      List.head?_cons]

/-- On a valid handle that passes the DRM check, `exynos_sc_config_blend_exclusive`
calls `SetRotate` first and, when that succeeds, `GetCustomAlphaBlendFmt` on the
translated source format and the translated blend-source format next. -/
theorem config_blend_calls_head {σ : Type} (HAL_PIXEL_FORMAT_2_V4L2_PIX : Nat → Int)
    (ops : CScalerBlendV4L2 σ) (sc : σ) (src_img dst_img : exynos_sc_img)
    (srcblendinfo : SrcBlendInfo)
    (hv : ops.Valid sc = true) (hd : src_img.drmMode = 0 ∨ ops.IsDRMAllowed sc = true) :
    (exynos_sc_config_blend_exclusive HAL_PIXEL_FORMAT_2_V4L2_PIX ops (some sc) src_img dst_img
      srcblendinfo).calls.head?
      = some (.SetRotate (rot_flip dst_img.rot).1 (rot_flip dst_img.rot).2.1
          (rot_flip dst_img.rot).2.2) ∧
    ((ops.SetRotate sc (rot_flip dst_img.rot).1 (rot_flip dst_img.rot).2.1
        (rot_flip dst_img.rot).2.2).1 = true →
      [ Call.SetRotate (rot_flip dst_img.rot).1 (rot_flip dst_img.rot).2.1
          (rot_flip dst_img.rot).2.2,
        Call.GetCustomAlphaBlendFmt (HAL_PIXEL_FORMAT_2_V4L2_PIX src_img.format)
          (HAL_PIXEL_FORMAT_2_V4L2_PIX srcblendinfo.srcblendfmt) ] <+:
      (exynos_sc_config_blend_exclusive HAL_PIXEL_FORMAT_2_V4L2_PIX ops (some sc) src_img dst_img
        srcblendinfo).calls) := by
  have hg : ¬ (src_img.drmMode != 0 && !ops.IsDRMAllowed sc) = true := by
    rcases hd with hd | hd <;> simp [hd]
  unfold exynos_sc_config_blend_exclusive
  split
  · rename_i hh
    simp [GetScalerBlend, hv] at hh
  rename_i sc1 hh
  simp only [GetScalerBlend, hv, Bool.not_true, Bool.false_eq_true, if_false,
    Option.some.injEq] at hh
  subst hh
  rw [if_neg hg]
  dsimp only
  split
  · rename_i h1
    refine ⟨by simp only [invoke_log, List.nil_append, List.head?_cons], ?_⟩
    intro hr
    simp [invoke, hr] at h1
  split
  · simp only [invoke_log, invokeVoid_log, List.nil_append, List.cons_append, List.append_assoc,
      List.head?_cons, true_and]
    exact fun _ => ⟨_, rfl⟩
  split
  · simp only [invoke_log, invokeVoid_log, List.nil_append, List.cons_append, List.append_assoc,
      List.head?_cons, true_and]
    exact fun _ => ⟨_, rfl⟩
  split
  · simp only [invoke_log, invokeVoid_log, List.nil_append, List.cons_append, List.append_assoc,
      List.head?_cons, true_and]
    exact fun _ => ⟨_, rfl⟩
  split
  · simp only [invoke_log, invokeVoid_log, List.nil_append, List.cons_append, List.append_assoc,
      List.head?_cons, true_and]
    exact fun _ => ⟨_, rfl⟩
  split
  · simp only [invoke_log, invokeVoid_log, List.nil_append, List.cons_append, List.append_assoc,
      List.head?_cons, true_and]
    exact fun _ => ⟨_, rfl⟩
  · simp only [invoke_log, invokeVoid_log, List.nil_append, List.cons_append, List.append_assoc,
      List.head?_cons, true_and]
    exact fun _ => ⟨_, rfl⟩

/-- When `GetCustomAlphaBlendFmt` leaves a negative `src_color_space`,
`exynos_sc_config_blend_exclusive` returns -1 right after it. -/
theorem config_blend_abort {σ : Type} (HAL_PIXEL_FORMAT_2_V4L2_PIX : Nat → Int)
    (ops : CScalerBlendV4L2 σ) (sc : σ) (src_img dst_img : exynos_sc_img)
    (srcblendinfo : SrcBlendInfo)
    (hv : ops.Valid sc = true) (hd : src_img.drmMode = 0 ∨ ops.IsDRMAllowed sc = true)
    (hr : (ops.SetRotate sc (rot_flip dst_img.rot).1 (rot_flip dst_img.rot).2.1
        (rot_flip dst_img.rot).2.2).1 = true)
    (hc : (ops.GetCustomAlphaBlendFmt
        (ops.SetRotate sc (rot_flip dst_img.rot).1 (rot_flip dst_img.rot).2.1
          (rot_flip dst_img.rot).2.2).2
        (HAL_PIXEL_FORMAT_2_V4L2_PIX src_img.format)
        (HAL_PIXEL_FORMAT_2_V4L2_PIX srcblendinfo.srcblendfmt)).1 < 0) :
    exynos_sc_config_blend_exclusive HAL_PIXEL_FORMAT_2_V4L2_PIX ops (some sc) src_img dst_img
        srcblendinfo =
      ⟨-1, some (ops.GetCustomAlphaBlendFmt
          (ops.SetRotate sc (rot_flip dst_img.rot).1 (rot_flip dst_img.rot).2.1
            (rot_flip dst_img.rot).2.2).2
          (HAL_PIXEL_FORMAT_2_V4L2_PIX src_img.format)
          (HAL_PIXEL_FORMAT_2_V4L2_PIX srcblendinfo.srcblendfmt)).2,
        [ .SetRotate (rot_flip dst_img.rot).1 (rot_flip dst_img.rot).2.1
            (rot_flip dst_img.rot).2.2,
          .GetCustomAlphaBlendFmt (HAL_PIXEL_FORMAT_2_V4L2_PIX src_img.format)
            (HAL_PIXEL_FORMAT_2_V4L2_PIX srcblendinfo.srcblendfmt) ]⟩ := by
  have hg : ¬ (src_img.drmMode != 0 && !ops.IsDRMAllowed sc) = true := by
    rcases hd with hd | hd <;> simp [hd]
  unfold exynos_sc_config_blend_exclusive
  split
  · rename_i hh
    simp [GetScalerBlend, hv] at hh
  rename_i sc1 hh
  simp only [GetScalerBlend, hv, Bool.not_true, Bool.false_eq_true, if_false,
    Option.some.injEq] at hh
  subst hh
  rw [if_neg hg]
  dsimp only
  split
  · rename_i h1
    simp [invoke, hr] at h1
  split
  · rfl
  · rename_i h2
    exact absurd hc h2

/-- When `SetRotate` fails, `exynos_sc_config_exclusive` returns -1 with the
session that call left and no further call. -/
theorem config_rotate_rejected {σ : Type} (HAL_PIXEL_FORMAT_2_V4L2_PIX : Nat → Int)
    (ops : CScalerV4L2 σ) (sc : σ) (src_img dst_img : exynos_sc_img)
    (hv : ops.Valid sc = true) (hd : src_img.drmMode = 0 ∨ ops.IsDRMAllowed sc = true)
    (hr : (ops.SetRotate sc (rot_flip dst_img.rot).1 (rot_flip dst_img.rot).2.1
        (rot_flip dst_img.rot).2.2).1 = false) :
    exynos_sc_config_exclusive HAL_PIXEL_FORMAT_2_V4L2_PIX ops (some sc) src_img dst_img =
      ⟨-1, some (ops.SetRotate sc (rot_flip dst_img.rot).1 (rot_flip dst_img.rot).2.1
          (rot_flip dst_img.rot).2.2).2,
        [ .SetRotate (rot_flip dst_img.rot).1 (rot_flip dst_img.rot).2.1
            (rot_flip dst_img.rot).2.2 ]⟩ := by
  have hg : ¬ (src_img.drmMode != 0 && !ops.IsDRMAllowed sc) = true := by
    rcases hd with hd | hd <;> simp [hd]
  unfold exynos_sc_config_exclusive
  split
  · rename_i hh
    simp [GetScaler, hv] at hh
  rename_i sc1 hh
  simp only [GetScaler, hv, Bool.not_true, Bool.false_eq_true, if_false, Option.some.injEq] at hh
  subst hh
  rw [if_neg hg]
  dsimp only
  split
  · rfl
  · rename_i h1
    simp [invoke, hr] at h1

/-- When `SetRotate` succeeds and `SetSrcFormat`, called on the session that
`SetRotate` left, fails, `exynos_sc_config_exclusive` returns -1 with the
session that `SetSrcFormat` left. -/
theorem config_format_rejected {σ : Type} (HAL_PIXEL_FORMAT_2_V4L2_PIX : Nat → Int)
    (ops : CScalerV4L2 σ) (sc : σ) (src_img dst_img : exynos_sc_img)
    (hv : ops.Valid sc = true) (hd : src_img.drmMode = 0 ∨ ops.IsDRMAllowed sc = true)
    (hr : (ops.SetRotate sc (rot_flip dst_img.rot).1 (rot_flip dst_img.rot).2.1
        (rot_flip dst_img.rot).2.2).1 = true)
    (hf : (ops.SetSrcFormat
        (ops.SetRotate sc (rot_flip dst_img.rot).1 (rot_flip dst_img.rot).2.1
          (rot_flip dst_img.rot).2.2).2
        src_img.fw src_img.fh (toUnsigned (HAL_PIXEL_FORMAT_2_V4L2_PIX src_img.format))).1
          = false) :
    exynos_sc_config_exclusive HAL_PIXEL_FORMAT_2_V4L2_PIX ops (some sc) src_img dst_img =
      ⟨-1, some (ops.SetSrcFormat
          (ops.SetRotate sc (rot_flip dst_img.rot).1 (rot_flip dst_img.rot).2.1
            (rot_flip dst_img.rot).2.2).2
          src_img.fw src_img.fh (toUnsigned (HAL_PIXEL_FORMAT_2_V4L2_PIX src_img.format))).2,
        [ .SetRotate (rot_flip dst_img.rot).1 (rot_flip dst_img.rot).2.1
            (rot_flip dst_img.rot).2.2,
          .SetSrcFormat src_img.fw src_img.fh
            (toUnsigned (HAL_PIXEL_FORMAT_2_V4L2_PIX src_img.format)) ]⟩ := by
  have hg : ¬ (src_img.drmMode != 0 && !ops.IsDRMAllowed sc) = true := by
    rcases hd with hd | hd <;> simp [hd]
  unfold exynos_sc_config_exclusive
  split
  · rename_i hh
    simp [GetScaler, hv] at hh
  rename_i sc1 hh
  simp only [GetScaler, hv, Bool.not_true, Bool.false_eq_true, if_false, Option.some.injEq] at hh
  subst hh
  rw [if_neg hg]
  dsimp only
  split
  · rename_i h1
    simp [invoke, hr] at h1
  split
  · rfl
  · rename_i h2
    simp [invoke, hf] at h2

/-- When `SetRotate` fails, `exynos_sc_config_blend_exclusive` returns -1 with
the session that call left and no further call. -/
theorem config_blend_rotate_rejected {σ : Type} (HAL_PIXEL_FORMAT_2_V4L2_PIX : Nat → Int)
    (ops : CScalerBlendV4L2 σ) (sc : σ) (src_img dst_img : exynos_sc_img)
    (srcblendinfo : SrcBlendInfo)
    (hv : ops.Valid sc = true) (hd : src_img.drmMode = 0 ∨ ops.IsDRMAllowed sc = true)
    (hr : (ops.SetRotate sc (rot_flip dst_img.rot).1 (rot_flip dst_img.rot).2.1
        (rot_flip dst_img.rot).2.2).1 = false) :
    exynos_sc_config_blend_exclusive HAL_PIXEL_FORMAT_2_V4L2_PIX ops (some sc) src_img dst_img
        srcblendinfo =
      ⟨-1, some (ops.SetRotate sc (rot_flip dst_img.rot).1 (rot_flip dst_img.rot).2.1
          (rot_flip dst_img.rot).2.2).2,
        [ .SetRotate (rot_flip dst_img.rot).1 (rot_flip dst_img.rot).2.1
            (rot_flip dst_img.rot).2.2 ]⟩ := by
  have hg : ¬ (src_img.drmMode != 0 && !ops.IsDRMAllowed sc) = true := by
    rcases hd with hd | hd <;> simp [hd]
  unfold exynos_sc_config_blend_exclusive
  split
  · rename_i hh
    simp [GetScalerBlend, hv] at hh
  rename_i sc1 hh
  simp only [GetScalerBlend, hv, Bool.not_true, Bool.false_eq_true, if_false,
    Option.some.injEq] at hh
  subst hh
  rw [if_neg hg]
  dsimp only
  split
  · rfl
  · rename_i h1
    simp [invoke, hr] at h1

/-- C3: the triple that `exynos_sc_config_exclusive` and
`exynos_sc_config_blend_exclusive` pass to `SetRotate` is the one derived from
`dst_img->rot`: (270, 0, 0) for the code 7, otherwise (90 if bit `ROT_90` is
set else 0, 1 if bit `FLIP_H` is set else 0, 1 if bit `FLIP_V` is set else 0).
Every `SetRotate` entry of the call log carries that triple and, on a valid
handle that passes the DRM check, it is the first entry. The method itself is
called on the incoming session with that triple: when that call fails, -1 is
returned with the session it left and nothing else is called; when it succeeds,
the next call (`SetSrcFormat`, respectively `GetCustomAlphaBlendFmt`) is made
on the session it left. The rotation is 0, 90 or 270, and the code 3 gives
(0, 1, 1). -/
theorem config_set_rotate_args {σ : Type} (HAL_PIXEL_FORMAT_2_V4L2_PIX : Nat → Int)
    (ops : CScalerV4L2 σ) (bops : CScalerBlendV4L2 σ) (handle : Option σ)
    (src_img dst_img : exynos_sc_img) (srcblendinfo : SrcBlendInfo) (t : Nat) :
    (∀ r h v, Call.SetRotate r h v ∈
        (exynos_sc_config_exclusive HAL_PIXEL_FORMAT_2_V4L2_PIX ops handle src_img dst_img).calls →
      (r, h, v) = deriveTransform dst_img.rot) ∧
    (∀ r h v, Call.SetRotate r h v ∈
        (exynos_sc_config_blend_exclusive HAL_PIXEL_FORMAT_2_V4L2_PIX bops handle src_img dst_img
          srcblendinfo).calls →
      (r, h, v) = deriveTransform dst_img.rot) ∧
    (∀ sc, handle = some sc → ops.Valid sc = true →
      (src_img.drmMode = 0 ∨ ops.IsDRMAllowed sc = true) →
      (exynos_sc_config_exclusive HAL_PIXEL_FORMAT_2_V4L2_PIX ops handle src_img dst_img).calls.head?
        = some (Call.SetRotate (deriveTransform dst_img.rot).1 (deriveTransform dst_img.rot).2.1
            (deriveTransform dst_img.rot).2.2)) ∧
    (∀ sc, handle = some sc → bops.Valid sc = true →
      (src_img.drmMode = 0 ∨ bops.IsDRMAllowed sc = true) →
      (exynos_sc_config_blend_exclusive HAL_PIXEL_FORMAT_2_V4L2_PIX bops handle src_img dst_img
          srcblendinfo).calls.head?
        = some (Call.SetRotate (deriveTransform dst_img.rot).1 (deriveTransform dst_img.rot).2.1
            (deriveTransform dst_img.rot).2.2)) ∧
    (∀ sc, handle = some sc → ops.Valid sc = true →
      (src_img.drmMode = 0 ∨ ops.IsDRMAllowed sc = true) →
      (setRotateCall ops.SetRotate sc dst_img.rot).1 = false →
      exynos_sc_config_exclusive HAL_PIXEL_FORMAT_2_V4L2_PIX ops handle src_img dst_img =
        ⟨-1, some (setRotateCall ops.SetRotate sc dst_img.rot).2,
          [ .SetRotate (deriveTransform dst_img.rot).1 (deriveTransform dst_img.rot).2.1
              (deriveTransform dst_img.rot).2.2 ]⟩) ∧
    (∀ sc, handle = some sc → ops.Valid sc = true →
      (src_img.drmMode = 0 ∨ ops.IsDRMAllowed sc = true) →
      (setRotateCall ops.SetRotate sc dst_img.rot).1 = true →
      (ops.SetSrcFormat (setRotateCall ops.SetRotate sc dst_img.rot).2 src_img.fw src_img.fh
        (toUnsigned (HAL_PIXEL_FORMAT_2_V4L2_PIX src_img.format))).1 = false →
      exynos_sc_config_exclusive HAL_PIXEL_FORMAT_2_V4L2_PIX ops handle src_img dst_img =
        ⟨-1, some (ops.SetSrcFormat (setRotateCall ops.SetRotate sc dst_img.rot).2 src_img.fw
            src_img.fh (toUnsigned (HAL_PIXEL_FORMAT_2_V4L2_PIX src_img.format))).2,
          [ .SetRotate (deriveTransform dst_img.rot).1 (deriveTransform dst_img.rot).2.1
              (deriveTransform dst_img.rot).2.2,
            .SetSrcFormat src_img.fw src_img.fh
              (toUnsigned (HAL_PIXEL_FORMAT_2_V4L2_PIX src_img.format)) ]⟩) ∧
    (∀ sc, handle = some sc → bops.Valid sc = true →
      (src_img.drmMode = 0 ∨ bops.IsDRMAllowed sc = true) →
      (setRotateCall bops.SetRotate sc dst_img.rot).1 = false →
      exynos_sc_config_blend_exclusive HAL_PIXEL_FORMAT_2_V4L2_PIX bops handle src_img dst_img
          srcblendinfo =
        ⟨-1, some (setRotateCall bops.SetRotate sc dst_img.rot).2,
          [ .SetRotate (deriveTransform dst_img.rot).1 (deriveTransform dst_img.rot).2.1
              (deriveTransform dst_img.rot).2.2 ]⟩) ∧
    (∀ sc, handle = some sc → bops.Valid sc = true →
      (src_img.drmMode = 0 ∨ bops.IsDRMAllowed sc = true) →
      (setRotateCall bops.SetRotate sc dst_img.rot).1 = true →
      (bops.GetCustomAlphaBlendFmt (setRotateCall bops.SetRotate sc dst_img.rot).2
        (HAL_PIXEL_FORMAT_2_V4L2_PIX src_img.format)
        (HAL_PIXEL_FORMAT_2_V4L2_PIX srcblendinfo.srcblendfmt)).1 < 0 →
      exynos_sc_config_blend_exclusive HAL_PIXEL_FORMAT_2_V4L2_PIX bops handle src_img dst_img
          srcblendinfo =
        ⟨-1, some (bops.GetCustomAlphaBlendFmt (setRotateCall bops.SetRotate sc dst_img.rot).2
            (HAL_PIXEL_FORMAT_2_V4L2_PIX src_img.format)
            (HAL_PIXEL_FORMAT_2_V4L2_PIX srcblendinfo.srcblendfmt)).2,
          [ .SetRotate (deriveTransform dst_img.rot).1 (deriveTransform dst_img.rot).2.1
              (deriveTransform dst_img.rot).2.2,
            .GetCustomAlphaBlendFmt (HAL_PIXEL_FORMAT_2_V4L2_PIX src_img.format)
              (HAL_PIXEL_FORMAT_2_V4L2_PIX srcblendinfo.srcblendfmt) ]⟩) ∧
    ((deriveTransform t).1 = 0 ∨ (deriveTransform t).1 = 90 ∨ (deriveTransform t).1 = 270) ∧
    (t = HAL_TRANSFORM_ROT_270 → deriveTransform t = (270, 0, 0)) ∧
    deriveTransform 3 = (0, 1, 1) := by
  refine ⟨?_, ?_, ?_, ?_, ?_, ?_, ?_, ?_, ?_, ?_, by decide⟩
  · intro r h v hm
    have hp := (config_calls_initial HAL_PIXEL_FORMAT_2_V4L2_PIX ops handle src_img dst_img).subset hm
    rw [← rot_flip_eq]
    simp only [config_calls, List.mem_cons, Call.SetRotate.injEq, reduceCtorEq,
      List.not_mem_nil, or_false] at hp
    obtain ⟨rfl, rfl, rfl⟩ := hp
    rfl
  · intro r h v hm
    obtain ⟨custom, hpre⟩ := config_blend_calls_initial HAL_PIXEL_FORMAT_2_V4L2_PIX bops handle
      src_img dst_img srcblendinfo
    have hp := hpre.subset hm
    rw [← rot_flip_eq]
    simp only [config_blend_calls, List.mem_cons, Call.SetRotate.injEq, reduceCtorEq,
      List.not_mem_nil, or_false] at hp
    obtain ⟨rfl, rfl, rfl⟩ := hp
    rfl
  · rintro sc rfl hv hd
    rw [← rot_flip_eq]
    exact config_calls_head HAL_PIXEL_FORMAT_2_V4L2_PIX ops sc src_img dst_img hv hd
  · rintro sc rfl hv hd
    rw [← rot_flip_eq]
    exact (config_blend_calls_head HAL_PIXEL_FORMAT_2_V4L2_PIX bops sc src_img dst_img
      srcblendinfo hv hd).1
  · rintro sc rfl hv hd hr
    unfold setRotateCall at hr ⊢
    rw [← rot_flip_eq] at hr ⊢
    exact config_rotate_rejected HAL_PIXEL_FORMAT_2_V4L2_PIX ops sc src_img dst_img hv hd hr
  · rintro sc rfl hv hd hr hf
    unfold setRotateCall at hr hf ⊢
    rw [← rot_flip_eq] at hr hf ⊢
    exact config_format_rejected HAL_PIXEL_FORMAT_2_V4L2_PIX ops sc src_img dst_img hv hd hr hf
  · rintro sc rfl hv hd hr
    unfold setRotateCall at hr ⊢
    rw [← rot_flip_eq] at hr ⊢
    exact config_blend_rotate_rejected HAL_PIXEL_FORMAT_2_V4L2_PIX bops sc src_img dst_img
      srcblendinfo hv hd hr
  · rintro sc rfl hv hd hr hc
    unfold setRotateCall at hr hc ⊢
    rw [← rot_flip_eq] at hr hc ⊢
    exact config_blend_abort HAL_PIXEL_FORMAT_2_V4L2_PIX bops sc src_img dst_img srcblendinfo
      hv hd hr hc
  · unfold deriveTransform
    split_ifs <;> simp
  · intro h7
    simp [deriveTransform, h7, HAL_TRANSFORM_ROT_270]

/-- Witness of `config_set_rotate_args`: a configure call with the transform
code 3 (H+V flip) on a fresh session passes (0, 1, 1) to `SetRotate`, and the
code 7 passes (270, 0, 0). A blend request that is refused right after
`SetRotate` leaves the session with the rotation (0, 1, 1) that the call
stored. -/
theorem config_set_rotate_args_witness :
    (exynos_sc_config_exclusive pixOfHal Session.v4l2 (some (Session.created false))
      (img 64 64 1 0 0) (img 32 32 1 3 0)).calls.head? = some (Call.SetRotate 0 1 1) ∧
    (exynos_sc_config_blend_exclusive pixOfHal Session.blend (some (Session.created false))
      (img 64 64 1 0 0) (img 32 32 1 3 0) (blendInfo 0 3)).calls.head?
        = some (Call.SetRotate 0 1 1) ∧
    exynos_sc_config_blend_exclusive pixOfHal Session.blend (some (Session.created false))
      (img 64 64 2 0 0) (img 32 32 1 3 0) (blendInfo 0 3) =
      ⟨-1, some { Session.created false with rotation := (0, 1, 1) },
        [.SetRotate 0 1 1, .GetCustomAlphaBlendFmt 2 3]⟩ ∧
    deriveTransform 7 = (270, 0, 0) ∧
    (exynos_sc_config_exclusive pixOfHal Session.v4l2 (some (Session.created false))
      (img 64 64 1 0 0) (img 32 32 1 3 0)).sc.map Session.rotation = some (0, 1, 1) ∧
    (exynos_sc_config_exclusive pixOfHal Session.v4l2 (some (Session.created false))
      (img 64 64 1 0 0) (img 32 32 1 7 0)).sc.map Session.rotation = some (270, 0, 0) :=
  have h := config_set_rotate_args pixOfHal Session.v4l2 Session.blend
    (some (Session.created false)) (img 64 64 1 0 0) (img 32 32 1 3 0) (blendInfo 0 3) 7
  have g := config_set_rotate_args pixOfHal Session.v4l2 Session.blend
    (some (Session.created false)) (img 64 64 2 0 0) (img 32 32 1 3 0) (blendInfo 0 3) 7
  ⟨h.2.2.1 (Session.created false) rfl rfl (Or.inl rfl),
   h.2.2.2.1 (Session.created false) rfl rfl (Or.inl rfl),
   g.2.2.2.2.2.2.2.1 (Session.created false) rfl rfl (Or.inl rfl) rfl (by decide),
   h.2.2.2.2.2.2.2.2.2.1 rfl,
   by decide, by decide⟩

/-- C1: on a valid handle, whatever results `b1 … b5` the five device steps
give, `exynos_sc_run_exclusive` issues them in the order DevSetCtrl,
DevSetFormat, ReqBufs, QBuf, StreamOn, issues none after the first that fails,
and returns 0 iff all five succeed, -1 otherwise. -/
theorem run_exclusive_sequence {σ : Type} (ops : CScalerV4L2 σ) (sc : σ)
    (src_img dst_img : exynos_sc_img) (b1 b2 b3 b4 b5 : Bool) (s1 s2 s3 s4 s5 : σ)
    (fdSrc fdDst : Int) (hv : ops.Valid sc = true)
    (h1 : ops.DevSetCtrl (boundSession ops sc src_img dst_img) = (b1, s1))
    (h2 : ops.DevSetFormat s1 = (b2, s2))
    (h3 : ops.ReqBufs s2 = (b3, s3))
    (h4 : ops.QBuf s3 = ((b4, fdSrc, fdDst), s4))
    (h5 : ops.StreamOn s4 = (b5, s5)) :
    deviceSteps (exynos_sc_run_exclusive ops (some sc) src_img dst_img).calls =
      stepsUntilFailure [(.DevSetCtrl, b1), (.DevSetFormat, b2), (.ReqBufs, b3), (.QBuf, b4),
        (.StreamOn, b5)] ∧
    ((exynos_sc_run_exclusive ops (some sc) src_img dst_img).ret = 0 ↔
      (b1 = true ∧ b2 = true ∧ b3 = true ∧ b4 = true ∧ b5 = true)) ∧
    ((exynos_sc_run_exclusive ops (some sc) src_img dst_img).ret ≠ 0 →
      (exynos_sc_run_exclusive ops (some sc) src_img dst_img).ret = -1) := by
  unfold boundSession at h1
  cases b1 <;> cases b2 <;> cases b3 <;> cases b4 <;> cases b5 <;>
    simp [exynos_sc_run_exclusive, GetScaler, invoke, hv, h1, h2, h3, h4, h5, deviceSteps,
      stepsUntilFailure, List.filter]

/-- Witness of `run_exclusive_sequence`: the device accepts DevSetCtrl and
DevSetFormat and refuses ReqBufs; QBuf and StreamOn are not issued. -/
theorem run_exclusive_sequence_witness :
    Session.v4l2.Valid (refusingAfter 2) = true ∧
    deviceSteps (exynos_sc_run_exclusive Session.v4l2 (some (refusingAfter 2))
      (img 64 64 1 0 0) (img 32 32 1 0 0)).calls = [.DevSetCtrl, .DevSetFormat, .ReqBufs] ∧
    (exynos_sc_run_exclusive Session.v4l2 (some (refusingAfter 2))
      (img 64 64 1 0 0) (img 32 32 1 0 0)).ret = -1 :=
  have h := run_exclusive_sequence Session.v4l2 (refusingAfter 2) (img 64 64 1 0 0)
    (img 32 32 1 0 0) true true false true true
    { refusingAfter 2 with device := [true, false] }
    { refusingAfter 2 with device := [false] }
    { refusingAfter 2 with device := [] }
    { refusingAfter 2 with device := [] }
    { refusingAfter 2 with device := [] }
    10 11 rfl rfl rfl rfl rfl rfl
  ⟨rfl, h.1, h.2.2 (by decide)⟩

/-- C2: on a valid handle, when the steps up to QBuf succeed and QBuf yields
the release fences `fdSrc` and `fdDst`: if StreamOn fails, both fences are
closed, once each, -1 is returned and the two descriptors are left as they
were; if StreamOn succeeds, nothing is closed, 0 is returned and the fences are
stored in `src_img->releaseFenceFd` and `dst_img->releaseFenceFd`. -/
theorem run_exclusive_fences {σ : Type} (ops : CScalerV4L2 σ) (sc : σ)
    (src_img dst_img : exynos_sc_img) (b5 : Bool) (s1 s2 s3 s4 s5 : σ)
    (fdSrc fdDst : Int) (hv : ops.Valid sc = true)
    (h1 : ops.DevSetCtrl (boundSession ops sc src_img dst_img) = (true, s1))
    (h2 : ops.DevSetFormat s1 = (true, s2))
    (h3 : ops.ReqBufs s2 = (true, s3))
    (h4 : ops.QBuf s3 = ((true, fdSrc, fdDst), s4))
    (h5 : ops.StreamOn s4 = (b5, s5)) :
    (b5 = false →
      (exynos_sc_run_exclusive ops (some sc) src_img dst_img).ret = -1 ∧
      closedFds (exynos_sc_run_exclusive ops (some sc) src_img dst_img).calls = [fdSrc, fdDst] ∧
      (exynos_sc_run_exclusive ops (some sc) src_img dst_img).src_img = src_img ∧
      (exynos_sc_run_exclusive ops (some sc) src_img dst_img).dst_img = dst_img) ∧
    (b5 = true →
      (exynos_sc_run_exclusive ops (some sc) src_img dst_img).ret = 0 ∧
      closedFds (exynos_sc_run_exclusive ops (some sc) src_img dst_img).calls = [] ∧
      (exynos_sc_run_exclusive ops (some sc) src_img dst_img).src_img =
        { src_img with releaseFenceFd := fdSrc } ∧
      (exynos_sc_run_exclusive ops (some sc) src_img dst_img).dst_img =
        { dst_img with releaseFenceFd := fdDst }) := by
  unfold boundSession at h1
  cases b5 <;>
    simp [exynos_sc_run_exclusive, GetScaler, invoke, hv, h1, h2, h3, h4, h5, closedFds,
      List.filterMap]

/-- Witness of `run_exclusive_fences`: the device hands out the fences 10 and
11 and then refuses StreamOn; both are closed and the descriptors keep their
release fence -1. -/
theorem run_exclusive_fences_witness :
    Session.v4l2.Valid (refusingAfter 4) = true ∧
    (exynos_sc_run_exclusive Session.v4l2 (some (refusingAfter 4))
      (img 64 64 1 0 0) (img 32 32 1 0 0)).ret = -1 ∧
    closedFds (exynos_sc_run_exclusive Session.v4l2 (some (refusingAfter 4))
      (img 64 64 1 0 0) (img 32 32 1 0 0)).calls = [10, 11] ∧
    (exynos_sc_run_exclusive Session.v4l2 (some (refusingAfter 4))
      (img 64 64 1 0 0) (img 32 32 1 0 0)).src_img = img 64 64 1 0 0 ∧
    (exynos_sc_run_exclusive Session.v4l2 (some (refusingAfter 4))
      (img 64 64 1 0 0) (img 32 32 1 0 0)).dst_img = img 32 32 1 0 0 :=
  ⟨rfl, (run_exclusive_fences Session.v4l2 (refusingAfter 4) (img 64 64 1 0 0)
    (img 32 32 1 0 0) false
    { refusingAfter 4 with device := [true, true, true, false] }
    { refusingAfter 4 with device := [true, true, false] }
    { refusingAfter 4 with device := [true, false] }
    { refusingAfter 4 with device := [false] }
    { refusingAfter 4 with device := [] }
    10 11 rfl rfl rfl rfl rfl rfl).1 rfl⟩

/-- C5: a session created without DRM permission is configured for DRM all the
same when only the destination requests it: `exynos_sc_config_exclusive` and
`exynos_sc_config_blend_exclusive` test `src_img->drmMode` alone, return 0 and
end with `SetDRM(true)`. -/
theorem config_exclusive_drm_by_dst :
    Session.v4l2.IsDRMAllowed (Session.created false) = false ∧
    (img 32 32 1 0 1).drmMode = 1 ∧
    (exynos_sc_config_exclusive pixOfHal Session.v4l2 (some (Session.created false))
      (img 64 64 1 0 0) (img 32 32 1 0 1)).ret = 0 ∧
    (exynos_sc_config_exclusive pixOfHal Session.v4l2 (some (Session.created false))
      (img 64 64 1 0 0) (img 32 32 1 0 1)).calls.getLast? = some (Call.SetDRM true) ∧
    (exynos_sc_config_exclusive pixOfHal Session.v4l2 (some (Session.created false))
      (img 64 64 1 0 0) (img 32 32 1 0 1)).sc.map Session.drm = some true ∧
    (exynos_sc_config_blend_exclusive pixOfHal Session.blend (some (Session.created false))
      (img 64 64 1 0 0) (img 32 32 1 0 1) (blendInfo 0 3)).ret = 0 ∧
    (exynos_sc_config_blend_exclusive pixOfHal Session.blend (some (Session.created false))
      (img 64 64 1 0 0) (img 32 32 1 0 1) (blendInfo 0 3)).calls.getLast?
        = some (Call.SetDRM true) ∧
    (exynos_sc_config_blend_exclusive pixOfHal Session.blend (some (Session.created false))
      (img 64 64 1 0 0) (img 32 32 1 0 1) (blendInfo 0 3)).sc.map Session.drm = some true := by
  refine ⟨rfl, rfl, ?_, ?_, ?_, ?_, ?_, ?_⟩ <;> decide

/-- C6: `exynos_sc_run_exclusive` does not read what `SetSrcAddr` and
`SetDstAddr` return: on a session with no format and no crop set both bindings
fail, and still all five device steps are issued and 0 is returned. -/
theorem run_exclusive_unbound :
    (Session.v4l2.SetSrcAddr (Session.created false) ⟨4096, 0, 0⟩ 2 (-1)).1 = false ∧
    (Session.v4l2.SetDstAddr (Session.created false) ⟨4096, 0, 0⟩ 2 (-1)).1 = false ∧
    (exynos_sc_run_exclusive Session.v4l2 (some (Session.created false))
      (img 64 64 1 0 0) (img 32 32 1 0 0)).ret = 0 ∧
    (exynos_sc_run_exclusive Session.v4l2 (some (Session.created false))
      (img 64 64 1 0 0) (img 32 32 1 0 0)).calls =
      [ .SetSrcAddr ⟨4096, 0, 0⟩ 2 (some (-1)), .SetDstAddr ⟨4096, 0, 0⟩ 2 (some (-1)),
        .DevSetCtrl, .DevSetFormat, .ReqBufs, .QBuf, .StreamOn ] := by
  refine ⟨rfl, rfl, ?_, ?_⟩ <;> decide

/-- C10, as stated, fails: the destination format takes no part in the blend
check. With a device that blends the pair (source format 1, blend-source
format 3) only, a request with destination format 2 and blend-source format 3,
an incompatible pair, is accepted: the check is given the source format 1, the
blend operator is applied and 0 is returned. -/
theorem config_blend_check_ignores_dst :
    ((Session.created false).blendTable.lookup (pixOfHal 2, pixOfHal 3)) = none ∧
    (exynos_sc_config_blend_exclusive pixOfHal Session.blend (some (Session.created false))
      (img 64 64 1 0 0) (img 32 32 2 0 0) (blendInfo 5 3)).ret = 0 ∧
    Call.GetCustomAlphaBlendFmt 1 3 ∈
      (exynos_sc_config_blend_exclusive pixOfHal Session.blend (some (Session.created false))
        (img 64 64 1 0 0) (img 32 32 2 0 0) (blendInfo 5 3)).calls ∧
    Call.GetCustomAlphaBlendFmt 2 3 ∉
      (exynos_sc_config_blend_exclusive pixOfHal Session.blend (some (Session.created false))
        (img 64 64 1 0 0) (img 32 32 2 0 0) (blendInfo 5 3)).calls ∧
    Call.SetSrcBlendOp 5 ∈
      (exynos_sc_config_blend_exclusive pixOfHal Session.blend (some (Session.created false))
        (img 64 64 1 0 0) (img 32 32 2 0 0) (blendInfo 5 3)).calls ∧
    (exynos_sc_config_blend_exclusive pixOfHal Session.blend (some (Session.created false))
      (img 64 64 1 0 0) (img 32 32 2 0 0) (blendInfo 5 3)).sc.map Session.blendOp
        = some (some 5) := by
  refine ⟨?_, ?_, ?_, ?_, ?_, ?_⟩ <;> decide

/-- C10, amended: on a valid blend handle that passes the DRM check and whose
`SetRotate` succeeds, `exynos_sc_config_blend_exclusive` checks the blend-source
format against the translated source format: its second call is
`GetCustomAlphaBlendFmt` on those two formats, and no call of that method is
given anything else. When the check leaves a negative `src_color_space`, -1 is
returned with no further call: no blend setter is invoked. -/
theorem config_blend_checks_source_pair {σ : Type} (HAL_PIXEL_FORMAT_2_V4L2_PIX : Nat → Int)
    (ops : CScalerBlendV4L2 σ) (sc : σ) (src_img dst_img : exynos_sc_img)
    (srcblendinfo : SrcBlendInfo)
    (hv : ops.Valid sc = true) (hd : src_img.drmMode = 0 ∨ ops.IsDRMAllowed sc = true)
    (hr : (ops.SetRotate sc (rot_flip dst_img.rot).1 (rot_flip dst_img.rot).2.1
        (rot_flip dst_img.rot).2.2).1 = true) :
    [ Call.SetRotate (rot_flip dst_img.rot).1 (rot_flip dst_img.rot).2.1
        (rot_flip dst_img.rot).2.2,
      Call.GetCustomAlphaBlendFmt (HAL_PIXEL_FORMAT_2_V4L2_PIX src_img.format)
        (HAL_PIXEL_FORMAT_2_V4L2_PIX srcblendinfo.srcblendfmt) ] <+:
      (exynos_sc_config_blend_exclusive HAL_PIXEL_FORMAT_2_V4L2_PIX ops (some sc) src_img dst_img
        srcblendinfo).calls ∧
    (∀ a b, Call.GetCustomAlphaBlendFmt a b ∈
        (exynos_sc_config_blend_exclusive HAL_PIXEL_FORMAT_2_V4L2_PIX ops (some sc) src_img
          dst_img srcblendinfo).calls →
      a = HAL_PIXEL_FORMAT_2_V4L2_PIX src_img.format ∧
      b = HAL_PIXEL_FORMAT_2_V4L2_PIX srcblendinfo.srcblendfmt) ∧
    ((ops.GetCustomAlphaBlendFmt
        (ops.SetRotate sc (rot_flip dst_img.rot).1 (rot_flip dst_img.rot).2.1
          (rot_flip dst_img.rot).2.2).2
        (HAL_PIXEL_FORMAT_2_V4L2_PIX src_img.format)
        (HAL_PIXEL_FORMAT_2_V4L2_PIX srcblendinfo.srcblendfmt)).1 < 0 →
      exynos_sc_config_blend_exclusive HAL_PIXEL_FORMAT_2_V4L2_PIX ops (some sc) src_img dst_img
          srcblendinfo =
        ⟨-1, some (ops.GetCustomAlphaBlendFmt
            (ops.SetRotate sc (rot_flip dst_img.rot).1 (rot_flip dst_img.rot).2.1
              (rot_flip dst_img.rot).2.2).2
            (HAL_PIXEL_FORMAT_2_V4L2_PIX src_img.format)
            (HAL_PIXEL_FORMAT_2_V4L2_PIX srcblendinfo.srcblendfmt)).2,
          [ .SetRotate (rot_flip dst_img.rot).1 (rot_flip dst_img.rot).2.1
              (rot_flip dst_img.rot).2.2,
            .GetCustomAlphaBlendFmt (HAL_PIXEL_FORMAT_2_V4L2_PIX src_img.format)
              (HAL_PIXEL_FORMAT_2_V4L2_PIX srcblendinfo.srcblendfmt) ]⟩) := by
  refine ⟨(config_blend_calls_head HAL_PIXEL_FORMAT_2_V4L2_PIX ops sc src_img dst_img
    srcblendinfo hv hd).2 hr, ?_, ?_⟩
  · intro a b hm
    obtain ⟨custom, hpre⟩ := config_blend_calls_initial HAL_PIXEL_FORMAT_2_V4L2_PIX ops (some sc)
      src_img dst_img srcblendinfo
    have hp := hpre.subset hm
    simp only [config_blend_calls, List.mem_cons, Call.GetCustomAlphaBlendFmt.injEq,
      reduceCtorEq, List.not_mem_nil, or_false, false_or] at hp
    exact hp
  · intro hc
    exact config_blend_abort HAL_PIXEL_FORMAT_2_V4L2_PIX ops sc src_img dst_img srcblendinfo
      hv hd hr hc

/-- Witness of `config_blend_checks_source_pair`: with a device that blends
the pair (1, 3) only, a request with source format 2 is refused after the
check, although its destination format 1 would pair with 3. -/
theorem config_blend_checks_source_pair_witness :
    Session.blend.Valid (Session.created false) = true ∧
    (img 64 64 2 0 0).drmMode = 0 ∧
    exynos_sc_config_blend_exclusive pixOfHal Session.blend (some (Session.created false))
      (img 64 64 2 0 0) (img 32 32 1 0 0) (blendInfo 5 3) =
      ⟨-1, some (Session.created false), [.SetRotate 0 0 0, .GetCustomAlphaBlendFmt 2 3]⟩ :=
  ⟨rfl, rfl,
    (config_blend_checks_source_pair pixOfHal Session.blend (Session.created false)
      (img 64 64 2 0 0) (img 32 32 1 0 0) (blendInfo 5 3) rfl (Or.inl rfl) rfl).2.2
      (by decide)⟩

end LibScaler
